import Mathlib

/-!
# Verification of the evo_tts synthesis pipeline (shallow embedding)

This file embeds, in Lean 4, the parts of the evo_tts C++ code base that the
specification's testable claims talk about: the result/audio data model
(`tts_types.hpp`), blank-token insertion and the synthesize control flow
(`matcha_backend.cpp`, `kokoro_backend.cpp`), the ISTFT output layout
(`vocoder.cpp`), Roman-numeral parsing (`number_utils.cpp`), the Kokoro
phonemizer's tokenisation (`kokoro_phonemizer.cpp`), the Kokoro voice manager
(`kokoro_voice_manager.cpp`), and the text normalizer (`text_normalizer.cpp`).

Modelling conventions:
* machine integers (`int`, `int32_t`, `int64_t`) are modelled as `Int`
  (no arithmetic in the modelled paths comes near the overflow boundary);
  sizes (`size_t`) as `Nat`;
* IEEE `float` values are modelled as `Rat`; the code paths proved about
  perform only comparisons, multiplications by constants and divisions, whose
  branch structure agrees with the rational model for all non-NaN inputs;
* `std::string` is modelled as its UTF-8 byte sequence (`List Nat`) where the
  source manipulates bytes, and as `List Char` where the source treats the
  string as a unit sequence;
* calls out of the repository (ONNX inference, espeak-ng, cpp-pinyin, the FFT
  kernel, wall-clock timing) are modelled as explicit function parameters that
  the theorems quantify over, so each proved statement holds for every
  possible behaviour of the external component.
-/

set_option maxRecDepth 10000

namespace EvoTts

-- =============================================================================
-- Data model: tts_types.hpp
-- =============================================================================

/-- Error codes from tts_types.hpp (only the constructors the modelled paths
produce). -/
inductive ErrorCode where
  | OK
  | INVALID_CONFIG
  | INVALID_TEXT
  | NOT_INITIALIZED
  | ALREADY_STARTED
  | MODEL_NOT_FOUND
  | SYNTHESIS_FAILED
  | INTERNAL_ERROR
  deriving DecidableEq, Repr

/-- ErrorInfo from tts_types.hpp: a code plus a message (the debug detail
string is folded into the message, it is never branched on). -/
structure ErrorInfo where
  code : ErrorCode
  message : String
  deriving DecidableEq, Repr

def ErrorInfo.isOk (e : ErrorInfo) : Bool := e.code = ErrorCode.OK

def ErrorInfo.ok : ErrorInfo := ⟨ErrorCode.OK, ""⟩

def ErrorInfo.error (c : ErrorCode) (msg : String) : ErrorInfo := ⟨c, msg⟩

/-- AudioChunk from tts_types.hpp. Samples are float32 modelled as `Rat`. -/
structure AudioChunk where
  samples : List Rat
  sample_rate : Int
  channels : Int
  is_final : Bool
  sentence_index : Int
  timestamp_ms : Int
  deriving DecidableEq, Repr

/-- AudioChunk::fromFloat. -/
def AudioChunk.fromFloat (data : List Rat) (sample_rate : Int)
    (is_final : Bool := true) : AudioChunk :=
  { samples := data
    sample_rate := sample_rate
    channels := 1
    is_final := is_final
    sentence_index := 0
    timestamp_ms := -1 }

/-- AudioChunk::getDurationMs: `samples.size() * 1000 / sample_rate` guarded by
emptiness and a positive sample rate.  `samples.size()` is a `size_t`, so with
`sample_rate > 0` the division is the unsigned (Nat) one. -/
def AudioChunk.getDurationMs (c : AudioChunk) : Int :=
  if c.samples.isEmpty ∨ c.sample_rate ≤ 0 then 0
  else ((c.samples.length * 1000) / c.sample_rate.toNat : Nat)

/-- SentenceInfo from tts_types.hpp (word details omitted: never read). -/
structure SentenceInfo where
  text : List Nat
  begin_time_ms : Int
  end_time_ms : Int
  is_final : Bool
  deriving DecidableEq, Repr

/-- SynthesisResult from tts_types.hpp. -/
structure SynthesisResult where
  request_id : String
  audio : AudioChunk
  sentences : List SentenceInfo
  audio_duration_ms : Int
  processing_time_ms : Int
  rtf : Rat
  success : Bool
  error : ErrorInfo
  deriving DecidableEq, Repr

/-- SynthesisResult::calculateRTF: mutates `rtf` only when
`audio_duration_ms > 0`; otherwise the method leaves `rtf` untouched. -/
def SynthesisResult.calculateRTF (r : SynthesisResult) : SynthesisResult :=
  if 0 < r.audio_duration_ms then
    { r with rtf := (r.processing_time_ms : Rat) / (r.audio_duration_ms : Rat) }
  else r

-- =============================================================================
-- Roman numerals: number_utils.cpp
-- =============================================================================

/-- std::toupper restricted to the ASCII execution character set (the inputs
the parser receives are ASCII bytes). -/
def cToUpper (c : Char) : Char :=
  if 'a' ≤ c ∧ c ≤ 'z' then Char.ofNat (c.toNat - 32) else c

/-- isRomanNumeralChar from number_utils.cpp. -/
def isRomanNumeralChar (c : Char) : Bool :=
  let u := cToUpper c
  u = 'I' ∨ u = 'V' ∨ u = 'X' ∨ u = 'L' ∨ u = 'C' ∨ u = 'D' ∨ u = 'M'

/-- isRomanNumeral from number_utils.cpp: strings shorter than 2 are rejected
outright, otherwise every character must be a Roman digit. -/
def isRomanNumeral (s : List Char) : Bool :=
  if s.length < 2 then false
  else s.all isRomanNumeralChar

/-- The `values` map of romanToInt.  `values[c]` uses `operator[]`, which
value-initialises missing keys, so unknown characters read as 0. -/
def romanValue (c : Char) : Int :=
  if c = 'I' then 1
  else if c = 'V' then 5
  else if c = 'X' then 10
  else if c = 'L' then 50
  else if c = 'C' then 100
  else if c = 'D' then 500
  else if c = 'M' then 1000
  else 0

/-- The indexed loop of romanToInt: each character is compared with its
successor; a smaller value preceding a larger one is subtracted. -/
def romanToInt : List Char → Int
  | [] => 0
  | [c] => romanValue (cToUpper c)
  | c :: next :: rest =>
      let value := romanValue (cToUpper c)
      let next_value := romanValue (cToUpper next)
      (if value < next_value then -value else value) + romanToInt (next :: rest)

-- =============================================================================
-- Blank-token insertion: MatchaBackend::addBlankTokens
-- =============================================================================

/-- The writing loop of addBlankTokens: starting at index 1, each token is
stored and the cursor advances by 2. -/
def blankWriteLoop : List Int → Nat → List Int → List Int
  | [], _, res => res
  | t :: ts, i, res => blankWriteLoop ts (i + 2) (res.set i t)

/-- MatchaBackend::addBlankTokens: a vector of size `2 * n + 1` filled with
`pad_id`, then the tokens written at odd indices 1, 3, 5, …. -/
def addBlankTokens (pad_id : Int) (tokens : List Int) : List Int :=
  blankWriteLoop tokens 1 (List.replicate (2 * tokens.length + 1) pad_id)

/-- The write loop leaves a prefix shorter than the start index untouched. -/
theorem blankWriteLoop_append (ts : List Int) (a : List Int) (b : List Int)
    (i : Nat) (h : a.length ≤ i) :
    blankWriteLoop ts i (a ++ b) = a ++ blankWriteLoop ts (i - a.length) b := by
  induction ts generalizing i b with
  | nil => simp [blankWriteLoop]
  | cons t ts ih =>
      simp only [blankWriteLoop]
      rw [List.set_append_right _ _ h, ih _ _ (by omega)]
      congr 2
      omega

/-- Closed form of the write loop started at index 0 on a fresh pad buffer:
it interleaves each token with a following pad. -/
theorem blankWriteLoop_zero (pad : Int) (ts : List Int) :
    blankWriteLoop ts 0 (List.replicate (2 * ts.length) pad) =
      ts.flatMap (fun t => [t, pad]) := by
  induction ts with
  | nil => simp [blankWriteLoop]
  | cons t ts ih =>
      have hrep : List.replicate (2 * (t :: ts).length) pad =
          pad :: pad :: List.replicate (2 * ts.length) pad := by
        rw [show 2 * (t :: ts).length = 2 * ts.length + 1 + 1 by
          simp [List.length_cons]; omega]
        rw [List.replicate_succ, List.replicate_succ]
      rw [hrep]
      simp only [blankWriteLoop, List.set]
      have : (t :: pad :: List.replicate (2 * ts.length) pad) =
          [t, pad] ++ List.replicate (2 * ts.length) pad := rfl
      rw [this, blankWriteLoop_append ts [t, pad] _ 2 (by simp)]
      simp [ih]

/-- Closed form of addBlankTokens: a leading pad, then token/pad pairs. -/
theorem addBlankTokens_eq (pad : Int) (ts : List Int) :
    addBlankTokens pad ts = pad :: ts.flatMap (fun t => [t, pad]) := by
  unfold addBlankTokens
  have hrep : List.replicate (2 * ts.length + 1) pad =
      [pad] ++ List.replicate (2 * ts.length) pad := by
    simp [List.replicate_succ]
  rw [hrep, blankWriteLoop_append ts [pad] _ 1 (by simp)]
  simp [blankWriteLoop_zero]

/-- The write loop never changes the buffer length. -/
theorem blankWriteLoop_length (ts : List Int) (i : Nat) (res : List Int) :
    (blankWriteLoop ts i res).length = res.length := by
  induction ts generalizing i res with
  | nil => rfl
  | cons t ts ih => simp [blankWriteLoop, ih]

/-- Even positions of the interleaved form hold the pad value. -/
theorem interleave_get_even (pad : Int) (ts : List Int) (k : Nat)
    (h : 2 * k < (pad :: ts.flatMap (fun t => [t, pad])).length) :
    (pad :: ts.flatMap (fun t => [t, pad]))[2 * k]? = some pad := by
  induction ts generalizing k with
  | nil =>
      simp only [List.flatMap_nil, List.length_cons, List.length_nil] at h
      have hk : k = 0 := by omega
      subst hk
      rfl
  | cons t ts ih =>
      cases k with
      | zero => rfl
      | succ k =>
          have hstep :
              (pad :: (t :: ts).flatMap (fun t => [t, pad]))[2 * (k + 1)]? =
                (pad :: ts.flatMap (fun t => [t, pad]))[2 * k]? := by
            have h2 : 2 * (k + 1) = (2 * k + 1) + 1 := by omega
            simp [List.flatMap_cons, h2]
          rw [hstep]
          apply ih
          simp only [List.flatMap_cons, List.length_cons, List.length_append,
            List.length_nil] at h ⊢
          omega

/-- Odd position `2k+1` of the interleaved form holds token `k`. -/
theorem interleave_get_odd (pad : Int) (ts : List Int) (k : Nat)
    (h : k < ts.length) :
    (pad :: ts.flatMap (fun t => [t, pad]))[2 * k + 1]? = ts[k]? := by
  induction ts generalizing k with
  | nil => simp at h
  | cons t ts ih =>
      cases k with
      | zero => simp [List.flatMap_cons]
      | succ k =>
          have hstep :
              (pad :: (t :: ts).flatMap (fun t => [t, pad]))[2 * (k + 1) + 1]? =
                (pad :: ts.flatMap (fun t => [t, pad]))[2 * k + 1]? := by
            have h2 : 2 * (k + 1) + 1 = ((2 * k + 1) + 1) + 1 := by omega
            simp [List.flatMap_cons, h2]
          rw [hstep, ih k (by simpa using Nat.lt_of_succ_lt_succ h)]
          simp

/-- C4: addBlankTokens returns a sequence of length `2 * len(tokens) + 1`;
every even index holds `pad_id` and index `2k+1` holds `tokens[k]`. -/
theorem addBlankTokens_spec (pad_id : Int) (tokens : List Int) :
    (addBlankTokens pad_id tokens).length = 2 * tokens.length + 1 ∧
    (∀ k, 2 * k < (addBlankTokens pad_id tokens).length →
      (addBlankTokens pad_id tokens)[2 * k]? = some pad_id) ∧
    (∀ k, k < tokens.length →
      (addBlankTokens pad_id tokens)[2 * k + 1]? = tokens[k]?) := by
  refine ⟨?_, ?_, ?_⟩
  · unfold addBlankTokens
    rw [blankWriteLoop_length]
    simp
  · intro k hk
    rw [addBlankTokens_eq] at hk ⊢
    exact interleave_get_even pad_id tokens k hk
  · intro k hk
    rw [addBlankTokens_eq]
    exact interleave_get_odd pad_id tokens k hk

/-- C4 witness: the theorem instantiated at pad 5 and tokens [7, 8]. -/
theorem addBlankTokens_spec_witness :
    (addBlankTokens 5 [7, 8]).length = 2 * 2 + 1 ∧
    (addBlankTokens 5 [7, 8])[2]? = some 5 ∧
    (addBlankTokens 5 [7, 8])[3]? = some 8 :=
  ⟨(addBlankTokens_spec 5 [7, 8]).1,
   (addBlankTokens_spec 5 [7, 8]).2.1 1 (by decide),
   (addBlankTokens_spec 5 [7, 8]).2.2 1 (by decide)⟩

-- =============================================================================
-- C6: SynthesisResult::calculateRTF
-- =============================================================================

/-- A synthesis result with an empty audio chunk, zero duration, and a stale
non-zero rtf value, as a caller-owned result object may carry. -/
def rtfStaleResult : SynthesisResult :=
  { request_id := ""
    audio := AudioChunk.fromFloat [] 22050 true
    sentences := []
    audio_duration_ms := 0
    processing_time_ms := 5
    rtf := 7
    success := false
    error := ErrorInfo.ok }

/-- C6 counterexample: the claim says that after calculateRTF an empty audio
chunk forces `rtf = 0`, but calculateRTF has no else-branch: with
`audio_duration_ms = 0` it leaves the stale `rtf = 7` in place. -/
theorem calculateRTF_claim_counterexample :
    (SynthesisResult.calculateRTF rtfStaleResult).audio.samples = [] ∧
    (SynthesisResult.calculateRTF rtfStaleResult).rtf ≠ 0 := by
  constructor
  · rfl
  · decide

/-- C6 (amended): calculateRTF sets
`rtf = processing_time_ms / audio_duration_ms` exactly when
`audio_duration_ms > 0`, and otherwise leaves `rtf` unchanged (so it stays 0
for a freshly initialised result, whose rtf field defaults to 0). -/
theorem calculateRTF_spec (r : SynthesisResult) :
    (0 < r.audio_duration_ms →
      (SynthesisResult.calculateRTF r).rtf =
        (r.processing_time_ms : Rat) / (r.audio_duration_ms : Rat)) ∧
    (¬ 0 < r.audio_duration_ms →
      (SynthesisResult.calculateRTF r).rtf = r.rtf) := by
  unfold SynthesisResult.calculateRTF
  constructor
  · intro h
    rw [if_pos h]
  · intro h
    rw [if_neg h]

/-- C6 witness: calculateRTF on a result with duration 2 ms and processing
time 6 ms yields rtf 3. -/
theorem calculateRTF_spec_witness :
    (SynthesisResult.calculateRTF
      { rtfStaleResult with audio_duration_ms := 2, processing_time_ms := 6 }).rtf =
      ((6 : Int) : Rat) / ((2 : Int) : Rat) :=
  (calculateRTF_spec
    { rtfStaleResult with audio_duration_ms := 2, processing_time_ms := 6 }).1
    (by decide)

-- =============================================================================
-- C9: Roman numerals
-- =============================================================================

/-- C9: romanToInt on "IV", "IX", "MCMLXXXIV", and rejection of strings
shorter than two characters (so a lone "I" is not treated as Roman). -/
theorem roman_numeral_spec :
    romanToInt "IV".data = 4 ∧
    romanToInt "IX".data = 9 ∧
    romanToInt "MCMLXXXIV".data = 1984 ∧
    (∀ s : List Char, s.length < 2 → isRomanNumeral s = false) := by
  refine ⟨by decide, by decide, by decide, ?_⟩
  intro s h
  unfold isRomanNumeral
  rw [if_pos h]

/-- C9 witness: the length-guard clause applied to the single letter "I". -/
theorem roman_numeral_spec_witness : isRomanNumeral "I".data = false :=
  roman_numeral_spec.2.2.2 "I".data (by decide)

-- =============================================================================
-- C10: KokoroVoiceManager (kokoro_voice_manager.cpp)
-- =============================================================================

/-- KokoroVoiceManager state: the flat float32 style tensor and the row count
computed by loadVoice.  STYLE_DIM is the constant 256. -/
structure KokoroVoiceManager where
  style_data : List Rat
  num_rows : Int
  deriving DecidableEq, Repr

/-- KokoroVoiceManager::getStyleVector: a zero vector when nothing is loaded,
otherwise row `max(min(token_len, num_rows - 1), 0)` of the (N, 256) matrix,
extracted with the iterator pair `begin + offset .. begin + offset + 256`. -/
def KokoroVoiceManager.getStyleVector (vm : KokoroVoiceManager)
    (token_len : Int) : List Rat :=
  if vm.style_data.isEmpty then List.replicate 256 0
  else
    let row := max (min token_len (vm.num_rows - 1)) 0
    let offset := row.toNat * 256
    (vm.style_data.drop offset).take 256

/-- The invariant loadVoice establishes on success: a non-empty tensor has
`num_rows ≥ 1` rows and exactly `num_rows * 256` floats. -/
def voiceLoadInvariant (vm : KokoroVoiceManager) : Prop :=
  vm.style_data ≠ [] →
    1 ≤ vm.num_rows ∧ vm.style_data.length = vm.num_rows.toNat * 256

/-- C10: under the loadVoice invariant, getStyleVector is total and returns
exactly 256 floats for every integer token length (negative or oversized
included): the zero vector when no voice is loaded, and otherwise row
`min(max(token_len, 0), N-1)` with the 256-element read in bounds. -/
theorem getStyleVector_spec (vm : KokoroVoiceManager) (token_len : Int)
    (hinv : voiceLoadInvariant vm) :
    (vm.getStyleVector token_len).length = 256 ∧
    (vm.style_data = [] →
      vm.getStyleVector token_len = List.replicate 256 0) ∧
    (vm.style_data ≠ [] →
      (min (max token_len 0) (vm.num_rows - 1)).toNat * 256 + 256 ≤
          vm.style_data.length ∧
      vm.getStyleVector token_len =
        (vm.style_data.drop
          ((min (max token_len 0) (vm.num_rows - 1)).toNat * 256)).take 256) := by
  by_cases hempty : vm.style_data = []
  · refine ⟨?_, fun _ => ?_, fun hne => absurd hempty hne⟩
    · simp [KokoroVoiceManager.getStyleVector, hempty]
    · simp [KokoroVoiceManager.getStyleVector, hempty]
  · obtain ⟨hrows, hlen⟩ := hinv hempty
    have hclamp : max (min token_len (vm.num_rows - 1)) 0 =
        min (max token_len 0) (vm.num_rows - 1) := by omega
    have hrowbound : (min (max token_len 0) (vm.num_rows - 1)).toNat + 1 ≤
        vm.num_rows.toNat := by omega
    have hoff : (min (max token_len 0) (vm.num_rows - 1)).toNat * 256 + 256 ≤
        vm.style_data.length := by
      rw [hlen]
      calc (min (max token_len 0) (vm.num_rows - 1)).toNat * 256 + 256
          = ((min (max token_len 0) (vm.num_rows - 1)).toNat + 1) * 256 := by ring
        _ ≤ vm.num_rows.toNat * 256 := Nat.mul_le_mul_right 256 hrowbound
    have hval : vm.getStyleVector token_len =
        (vm.style_data.drop
          ((min (max token_len 0) (vm.num_rows - 1)).toNat * 256)).take 256 := by
      simp only [KokoroVoiceManager.getStyleVector, List.isEmpty_iff,
        if_neg hempty, hclamp]
    refine ⟨?_, fun h => absurd h hempty, fun _ => ⟨hoff, hval⟩⟩
    rw [hval]
    rw [List.length_take, List.length_drop]
    omega

/-- C10 witness: a loaded two-row voice queried with a negative token length
returns a 256-float vector taken from row 0. -/
theorem getStyleVector_spec_witness :
    ((KokoroVoiceManager.mk (List.replicate 512 (1 / 2)) 2).getStyleVector
      (-3)).length = 256 :=
  (getStyleVector_spec (KokoroVoiceManager.mk (List.replicate 512 (1 / 2)) 2)
    (-3) (by intro h; exact ⟨by decide, by simp⟩)).1

-- =============================================================================
-- C7: dynamic setters (matcha_backend.cpp, kokoro_backend.cpp)
-- =============================================================================

/-- The dynamic state of a Matcha backend that the setters touch. -/
structure MatchaDynState where
  current_speed : Rat
  current_speaker : Int
  num_speakers : Int
  deriving DecidableEq, Repr

/-- MatchaBackend::setSpeed. -/
def MatchaBackend.setSpeed (st : MatchaDynState) (speed : Rat) :
    ErrorInfo × MatchaDynState :=
  if speed ≤ 0 ∨ 10 < speed then
    (ErrorInfo.error ErrorCode.INVALID_CONFIG "Speed must be between 0.1 and 10.0", st)
  else
    (ErrorInfo.ok, { st with current_speed := speed })

/-- MatchaBackend::setSpeaker. -/
def MatchaBackend.setSpeaker (st : MatchaDynState) (speaker_id : Int) :
    ErrorInfo × MatchaDynState :=
  if speaker_id < 0 then
    (ErrorInfo.error ErrorCode.INVALID_CONFIG "Speaker ID must be non-negative", st)
  else if st.num_speakers ≤ speaker_id then
    (ErrorInfo.error ErrorCode.INVALID_CONFIG "Speaker ID out of range", st)
  else
    (ErrorInfo.ok, { st with current_speaker := speaker_id })

/-- The dynamic state of the Kokoro backend (it has no speaker state; its
speaker-less model reports a single speaker). -/
structure KokoroDynState where
  current_speed : Rat
  deriving DecidableEq, Repr

/-- KokoroBackend::setSpeed. -/
def KokoroBackend.setSpeed (st : KokoroDynState) (speed : Rat) :
    ErrorInfo × KokoroDynState :=
  if speed ≤ 0 ∨ 10 < speed then
    (ErrorInfo.error ErrorCode.INVALID_CONFIG "Speed must be between 0.1 and 10.0", st)
  else
    (ErrorInfo.ok, { st with current_speed := speed })

/-- C7: a speed that violates `speech_rate > 0` makes setSpeed return an
InvalidConfig error with the state unchanged, on both the Matcha and the
Kokoro backend; a speaker id that is negative or not below the speaker count
makes setSpeaker return an InvalidConfig error with the state unchanged (the
Matcha family is the only backend with speaker state). -/
theorem setters_reject_invalid (stM : MatchaDynState) (stK : KokoroDynState)
    (speed : Rat) (speaker_id : Int) :
    (¬ 0 < speed →
      (MatchaBackend.setSpeed stM speed).1.code = ErrorCode.INVALID_CONFIG ∧
      (MatchaBackend.setSpeed stM speed).2 = stM ∧
      (KokoroBackend.setSpeed stK speed).1.code = ErrorCode.INVALID_CONFIG ∧
      (KokoroBackend.setSpeed stK speed).2 = stK) ∧
    ((speaker_id < 0 ∨ stM.num_speakers ≤ speaker_id) →
      (MatchaBackend.setSpeaker stM speaker_id).1.code = ErrorCode.INVALID_CONFIG ∧
      (MatchaBackend.setSpeaker stM speaker_id).2 = stM) := by
  constructor
  · intro h
    have hle : speed ≤ 0 := le_of_not_lt h
    unfold MatchaBackend.setSpeed KokoroBackend.setSpeed
    rw [if_pos (Or.inl hle), if_pos (Or.inl hle)]
    exact ⟨rfl, rfl, rfl, rfl⟩
  · intro h
    unfold MatchaBackend.setSpeaker
    rcases h with h | h
    · rw [if_pos h]
      exact ⟨rfl, rfl⟩
    · by_cases hneg : speaker_id < 0
      · rw [if_pos hneg]
        exact ⟨rfl, rfl⟩
      · rw [if_neg hneg, if_pos h]
        exact ⟨rfl, rfl⟩

/-- C7 witness: speed 0 and speaker 1 (on a single-speaker backend) are both
rejected without mutating the state. -/
theorem setters_reject_invalid_witness :
    (MatchaBackend.setSpeed (MatchaDynState.mk 1 0 1) 0).2 =
        MatchaDynState.mk 1 0 1 ∧
    (MatchaBackend.setSpeaker (MatchaDynState.mk 1 0 1) 1).1.code =
        ErrorCode.INVALID_CONFIG :=
  ⟨((setters_reject_invalid (MatchaDynState.mk 1 0 1) (KokoroDynState.mk 1)
      0 1).1 (by decide)).2.1,
   ((setters_reject_invalid (MatchaDynState.mk 1 0 1) (KokoroDynState.mk 1)
      0 1).2 (by decide)).1⟩

-- =============================================================================
-- C8: ISTFT (vocoder.cpp)
-- =============================================================================

/-- ISTFTConfig from vocoder.hpp.  The three parameters come from the vocoder
model metadata as int32 values (defaults 1024, 256, 1024); they are
non-negative in every reachable configuration. -/
structure ISTFTConfig where
  n_fft : Nat
  hop_length : Nat
  win_length : Nat
  deriving DecidableEq, Repr

/-- The float32 rounding of M_PI, used by createHannWindow. -/
def mPi : Rat := 3.14159265358979323846

/-- createHannWindow from vocoder.cpp, parameterized by the cosine kernel
(`std::cos` is transcendental; every theorem below holds for an arbitrary
cosine function, so the real one is covered). -/
def createHannWindow (cosq : Rat → Rat) (length : Nat) : List Rat :=
  (List.range length).map
    (fun i => (1 / 2 : Rat) * (1 - cosq (2 * mPi * i / ((length : Rat) - 1))))

/-- One frame of the istft loop: the inverse real FFT (modelled by the `ifft`
parameter, which receives the frame's real and imaginary pointers and stands
for the FFTW c2r transform producing `n_fft` time samples), the `1 / n_fft`
normalization pass, and the windowing pass over indices `i < win_length`. -/
def istftFrame (ifft : List Rat → List Rat → List Rat)
    (n_fft win_length : Nat) (window : List Rat)
    (re im : List Rat) : List Rat :=
  let raw := ifft re im
  let scale : Rat := 1 / (n_fft : Rat)
  let scaled := (List.range n_fft).map (fun i => raw.getD i 0 * scale)
  (List.range n_fft).map
    (fun i => if i < win_length then scaled.getD i 0 * window.getD i 0
              else scaled.getD i 0)

/-- The per-frame overlap-add step of tts::vocoder::istft: extract the
frame's real/imag pointers, run the windowed inverse FFT, then add the
`n_fft` samples (and the squared window) into the accumulators at offset
`frame * hop_length`, each write guarded by `start_pos + i < audio_length`.
The Hann window is a loop constant in the source; it is recomputed here. -/
def istftStep (ifft : List Rat → List Rat → List Rat) (cosq : Rat → Rat)
    (stft_real stft_imag : List Rat) (n_fft_bins : Nat)
    (config : ISTFTConfig) (audio_length : Nat)
    (acc : List Rat × List Rat) (frame : Nat) : List Rat × List Rat :=
  let n_fft := config.n_fft
  let window := createHannWindow cosq config.win_length
  let re := stft_real.drop (frame * n_fft_bins)
  let im := stft_imag.drop (frame * n_fft_bins)
  let out := istftFrame ifft n_fft config.win_length window re im
  let start_pos := frame * config.hop_length
  (List.range n_fft).foldl (fun acc2 i =>
    if start_pos + i < audio_length then
      (acc2.1.set (start_pos + i) (acc2.1.getD (start_pos + i) 0 + out.getD i 0),
       acc2.2.set (start_pos + i)
         (acc2.2.getD (start_pos + i) 0 + window.getD i 0 * window.getD i 0))
    else acc2) acc

/-- tts::vocoder::istft from vocoder.cpp: allocate the output and the
window-energy accumulator at `n_fft + (num_frames - 1) * hop_length`,
zero-initialized, overlap-add every frame, then divide by the accumulated
window energy where it exceeds 1e-8. -/
def istft (ifft : List Rat → List Rat → List Rat) (cosq : Rat → Rat)
    (stft_real stft_imag : List Rat) (num_frames n_fft_bins : Nat)
    (config : ISTFTConfig) : List Rat :=
  let audio_length := config.n_fft + (num_frames - 1) * config.hop_length
  let final := (List.range num_frames).foldl
    (istftStep ifft cosq stft_real stft_imag n_fft_bins config audio_length)
    (List.replicate audio_length 0, List.replicate audio_length 0)
  List.zipWith (fun a d => if (1 / 100000000 : Rat) < d then a / d else a)
    final.1 final.2

/-- Folding a step that preserves an invariant preserves it over a list. -/
theorem foldl_preserve {α β : Type} (P : α → Prop) (f : α → β → α)
    (l : List β) (a : α) (h0 : P a) (hstep : ∀ x b, P x → P (f x b)) :
    P (l.foldl f a) := by
  induction l generalizing a with
  | nil => exact h0
  | cons b l ih => exact ih _ (hstep a b h0)

/-- One overlap-add step never changes the accumulator lengths. -/
theorem istftStep_length (ifft : List Rat → List Rat → List Rat)
    (cosq : Rat → Rat) (stft_real stft_imag : List Rat) (n_fft_bins : Nat)
    (config : ISTFTConfig) (audio_length : Nat)
    (acc : List Rat × List Rat) (frame : Nat) :
    (istftStep ifft cosq stft_real stft_imag n_fft_bins config audio_length
        acc frame).1.length = acc.1.length ∧
    (istftStep ifft cosq stft_real stft_imag n_fft_bins config audio_length
        acc frame).2.length = acc.2.length := by
  unfold istftStep
  refine foldl_preserve
    (fun acc2 => acc2.1.length = acc.1.length ∧ acc2.2.length = acc.2.length)
    _ _ acc ⟨rfl, rfl⟩ ?_
  intro acc2 i hacc2
  dsimp only
  by_cases hin : frame * config.hop_length + i < audio_length
  · simp only [if_pos hin, List.length_set]
    exact hacc2
  · simp only [if_neg hin]
    exact hacc2

/-- C8: for every frame count T ≥ 1 and every configuration, the audio buffer
returned by istft has length exactly `n_fft + (T - 1) * hop`, for every
possible FFT kernel and cosine function. -/
theorem istft_output_length (ifft : List Rat → List Rat → List Rat)
    (cosq : Rat → Rat) (stft_real stft_imag : List Rat)
    (num_frames n_fft_bins : Nat) (config : ISTFTConfig)
    (hT : 1 ≤ num_frames) :
    (istft ifft cosq stft_real stft_imag num_frames n_fft_bins config).length =
      config.n_fft + (num_frames - 1) * config.hop_length := by
  unfold istft
  dsimp only
  rw [List.length_zipWith]
  have h := foldl_preserve
    (fun acc : List Rat × List Rat =>
      acc.1.length = config.n_fft + (num_frames - 1) * config.hop_length ∧
      acc.2.length = config.n_fft + (num_frames - 1) * config.hop_length)
    (istftStep ifft cosq stft_real stft_imag n_fft_bins config
      (config.n_fft + (num_frames - 1) * config.hop_length))
    (List.range num_frames)
    (List.replicate (config.n_fft + (num_frames - 1) * config.hop_length) 0,
     List.replicate (config.n_fft + (num_frames - 1) * config.hop_length) 0)
    (by constructor <;> simp)
    (fun x b hx => by
      have hs := istftStep_length ifft cosq stft_real stft_imag n_fft_bins
        config (config.n_fft + (num_frames - 1) * config.hop_length) x b
      exact ⟨hs.1.trans hx.1, hs.2.trans hx.2⟩)
  rw [h.1, h.2, Nat.min_self]

/-- C8 witness: two empty frames at n_fft 4, hop 2 give 4 + 1 * 2 samples. -/
theorem istft_output_length_witness :
    (istft (fun _ _ => []) (fun _ => 0) [] [] 2 1
      (ISTFTConfig.mk 4 2 4)).length = 4 + (2 - 1) * 2 :=
  istft_output_length (fun _ _ => []) (fun _ => 0) [] [] 2 1
    (ISTFTConfig.mk 4 2 4) (by decide)

-- =============================================================================
-- C3: Kokoro phonemizer tokenisation (kokoro_phonemizer.cpp)
-- =============================================================================

/-- The UTF-8 lead-byte length rule used throughout kokoro_phonemizer.cpp:
`c >= 0xF0 -> 4`, `c >= 0xE0 -> 3`, `c >= 0xC0 -> 2`, else 1. -/
def utf8Len (c : Nat) : Nat :=
  if 0xF0 ≤ c then 4 else if 0xE0 ≤ c then 3 else if 0xC0 ≤ c then 2 else 1

theorem utf8Len_pos (c : Nat) : 1 ≤ utf8Len c := by
  unfold utf8Len
  split <;> try omega
  split <;> try omega
  split <;> omega

/-- The 114-entry Kokoro vocabulary from KokoroPhonemizer::initVocab, keyed by
the UTF-8 byte sequence of each token (ids are sparse, 1–177; id 0 is PAD). -/
def kokoroVocabEntries : List (List Nat × Int) :=
  [([0x3B], 1), ([0x3A], 2), ([0x2C], 3), ([0x2E], 4), ([0x21], 5), ([0x3F], 6),
   ([0xE2, 0x80, 0x94], 9), ([0xE2, 0x80, 0xA6], 10),
   ([0x22], 11), ([0x28], 12), ([0x29], 13),
   ([0xE2, 0x80, 0x9C], 14), ([0xE2, 0x80, 0x9D], 15),
   ([0x20], 16), ([0xCC, 0x83], 17),
   ([0xCA, 0xA3], 18), ([0xCA, 0xA5], 19), ([0xCA, 0xA6], 20), ([0xCA, 0xA8], 21),
   ([0xE1, 0xB5, 0x9D], 22), ([0xEA, 0xAD, 0xA7], 23),
   ([0x41], 24), ([0x49], 25),
   ([0x4F], 31), ([0x51], 33), ([0x53], 35), ([0x54], 36),
   ([0x57], 39), ([0x59], 41),
   ([0xE1, 0xB5, 0x8A], 42),
   ([0x61], 43), ([0x62], 44), ([0x63], 45), ([0x64], 46), ([0x65], 47),
   ([0x66], 48), ([0x68], 50), ([0x69], 51), ([0x6A], 52), ([0x6B], 53),
   ([0x6C], 54), ([0x6D], 55), ([0x6E], 56), ([0x6F], 57), ([0x70], 58),
   ([0x71], 59), ([0x72], 60), ([0x73], 61), ([0x74], 62), ([0x75], 63),
   ([0x76], 64), ([0x77], 65), ([0x78], 66), ([0x79], 67), ([0x7A], 68),
   ([0xC9, 0x91], 69), ([0xC9, 0x90], 70), ([0xC9, 0x92], 71),
   ([0xC3, 0xA6], 72), ([0xCE, 0xB2], 75), ([0xC9, 0x94], 76),
   ([0xC9, 0x95], 77), ([0xC3, 0xA7], 78), ([0xC9, 0x96], 80),
   ([0xC3, 0xB0], 81), ([0xCA, 0xA4], 82), ([0xC9, 0x99], 83),
   ([0xC9, 0x9A], 85), ([0xC9, 0x9B], 86), ([0xC9, 0x9C], 87),
   ([0xC9, 0x9F], 90), ([0xC9, 0xA1], 92), ([0xC9, 0xA5], 99),
   ([0xC9, 0xA8], 101), ([0xC9, 0xAA], 102), ([0xCA, 0x9D], 103),
   ([0xC9, 0xAF], 110), ([0xC9, 0xB0], 111), ([0xC5, 0x8B], 112),
   ([0xC9, 0xB3], 113), ([0xC9, 0xB2], 114), ([0xC9, 0xB4], 115),
   ([0xC3, 0xB8], 116), ([0xC9, 0xB8], 118), ([0xCE, 0xB8], 119),
   ([0xC5, 0x93], 120), ([0xC9, 0xB9], 123), ([0xC9, 0xBE], 125),
   ([0xC9, 0xBB], 126), ([0xCA, 0x81], 128), ([0xC9, 0xBD], 129),
   ([0xCA, 0x82], 130), ([0xCA, 0x83], 131), ([0xCA, 0x88], 132),
   ([0xCA, 0xA7], 133), ([0xCA, 0x8A], 135), ([0xCA, 0x8B], 136),
   ([0xCA, 0x8C], 138), ([0xC9, 0xA3], 139), ([0xC9, 0xA4], 140),
   ([0xCF, 0x87], 142), ([0xCA, 0x8E], 143), ([0xCA, 0x92], 147),
   ([0xCA, 0x94], 148),
   ([0xCB, 0x88], 156), ([0xCB, 0x8C], 157), ([0xCB, 0x90], 158),
   ([0xCA, 0xB0], 162), ([0xCA, 0xB2], 164),
   ([0xE2, 0x86, 0x93], 169), ([0xE2, 0x86, 0x92], 171),
   ([0xE2, 0x86, 0x97], 172), ([0xE2, 0x86, 0x98], 173),
   ([0xE1, 0xB5, 0xBB], 177)]

/-- Lookup in the vocab map (`vocab_.find`). -/
def kokoroVocabLookup (tok : List Nat) : Option Int :=
  (kokoroVocabEntries.find? (fun e => e.1 = tok)).map (fun e => e.2)

/-- The loop of KokoroPhonemizer::ipaToTokenIds with an explicit fuel
parameter (the cursor advances by at least one byte per iteration, so the
byte count is enough fuel; the fuel keeps the definition structurally
recursive and hence kernel-evaluable). -/
def ipaToTokenIdsFuel : Nat → List Nat → List Int
  | 0, _ => []
  | _, [] => []
  | fuel + 1, c :: rest =>
      let len := utf8Len c
      let tok := (c :: rest).take len
      (if tok.length = len then
        match kokoroVocabLookup tok with
        | some id => [id]
        | none => []
      else []) ++ ipaToTokenIdsFuel fuel ((c :: rest).drop len)

/-- KokoroPhonemizer::ipaToTokenIds: walk the byte string one UTF-8 scalar at
a time (length from the lead byte); a scalar that fits in the remaining bytes
and is in the vocabulary contributes its id, everything else is skipped. -/
def ipaToTokenIds (ipa : List Nat) : List Int :=
  ipaToTokenIdsFuel ipa.length ipa

/-- Steps 3–5 of KokoroPhonemizer::textToTokenIds: convert the combined IPA
byte string to ids, wrap with the PAD id 0, and truncate to 512 forcing a
trailing PAD.  The segmentation loop that produces `combined_ipa` (steps 1–2)
calls cpp-pinyin and espeak-ng, so it is abstracted into the argument: the
theorem below quantifies over every possible IPA string, and the empty-string
early returns of the source (empty text, uninitialised converter, no IPA
output) all map to the `[]` branch. -/
def kokoroTextToTokenIds (combined_ipa : List Nat) : List Int :=
  if combined_ipa = [] then []
  else
    let ids := ipaToTokenIds combined_ipa
    let padded := 0 :: (ids ++ [0])
    if 512 < padded.length then (padded.take 512).set (512 - 1) 0
    else padded

/-- C3: the token sequence is at most 512 long, and whenever it is non-empty
its first and last elements are the PAD id 0, truncation included. -/
theorem kokoro_token_ids_spec (combined_ipa : List Nat) :
    (kokoroTextToTokenIds combined_ipa).length ≤ 512 ∧
    (kokoroTextToTokenIds combined_ipa ≠ [] →
      (kokoroTextToTokenIds combined_ipa).head? = some 0 ∧
      (kokoroTextToTokenIds combined_ipa).getLast? = some 0) := by
  unfold kokoroTextToTokenIds
  by_cases hempty : combined_ipa = []
  · simp [hempty]
  · rw [if_neg hempty]
    dsimp only
    by_cases hlen : 512 < (0 :: (ipaToTokenIds combined_ipa ++ [0])).length
    · rw [if_pos hlen]
      have htake : ((0 :: (ipaToTokenIds combined_ipa ++ [0])).take 512).length
          = 512 := by
        rw [List.length_take]
        omega
      have hsetlen :
          (((0 :: (ipaToTokenIds combined_ipa ++ [0])).take 512).set
            (512 - 1) 0).length = 512 := by
        rw [List.length_set, htake]
      refine ⟨by omega, fun _ => ⟨?_, ?_⟩⟩
      · have h0 : (((0 :: (ipaToTokenIds combined_ipa ++ [0])).take 512).set
            (512 - 1) 0)[0]? =
            ((0 :: (ipaToTokenIds combined_ipa ++ [0])).take 512)[0]? :=
          List.getElem?_set_ne (by omega)
        rw [List.head?_eq_getElem?, h0, List.getElem?_take]
        simp
      · rw [List.getLast?_eq_getElem?, hsetlen]
        rw [List.getElem?_set_self (by omega)]
    · rw [if_neg hlen]
      refine ⟨by simpa using hlen, fun _ => ⟨rfl, ?_⟩⟩
      rw [show (0 : Int) :: (ipaToTokenIds combined_ipa ++ [0]) =
        ((0 : Int) :: ipaToTokenIds combined_ipa) ++ [0] from rfl]
      exact List.getLast?_concat _

/-- C3 witness: the single-byte IPA string "a" tokenises to [0, 43, 0]. -/
theorem kokoro_token_ids_spec_witness :
    (kokoroTextToTokenIds [0x61]).head? = some 0 ∧
    (kokoroTextToTokenIds [0x61]).getLast? = some 0 :=
  (kokoro_token_ids_spec [0x61]).2 (by decide)

-- =============================================================================
-- C1 / C5: the synthesize control flow (matcha_backend.cpp, kokoro_backend.cpp)
-- =============================================================================

/-- The MatchaBackend state read by synthesize: the init flag, the native
rate fixed by createInternalConfig, the configured output rate, the pad id
from the acoustic metadata, the per-variant blank-token flag, and the dynamic
speed/speaker. -/
structure MatchaState where
  initialized : Bool
  sample_rate : Int
  output_sample_rate : Int
  pad_id : Int
  uses_blank : Bool
  current_speed : Rat
  current_speaker : Int

/-- The components MatchaBackend::synthesize calls out to, as total
functions: the text normalizer and the per-language virtual textToTokenIds
(jieba / espeak-ng / pinyin), the two ONNX sessions (the vocoder entry
includes the ISTFT and audio post-processing of runVocoder), the linear
resampler, and the wall-clock duration.  Every theorem below quantifies over
this record, so it holds for each possible behaviour of these components;
a C++ exception from them would take the catch-all SYNTHESIS_FAILED return,
which never reports success. -/
structure MatchaOracles where
  normalizeText : List Nat → List Nat
  textToTokenIds : List Nat → List Int
  runAcousticModel : List Int → Int → Rat → List Rat
  runVocoder : List Rat → List Rat
  resampleAudio : List Rat → Int → Int → List Rat
  elapsed_ms : Int

/-- MatchaBackend::synthesize: guards, normalization, phonemization, the two
empty-result early returns (note both use the native `sample_rate_`),
optional resampling, and result packaging.  The caller's `result` is an
in/out parameter; the inference mutex and the optional callback have no
effect on the returned value. -/
def MatchaBackend.synthesize (st : MatchaState) (o : MatchaOracles)
    (text : List Nat) (result : SynthesisResult) :
    ErrorInfo × SynthesisResult :=
  if st.initialized = false then
    (ErrorInfo.error ErrorCode.NOT_INITIALIZED "Backend not initialized", result)
  else if text = [] then
    (ErrorInfo.error ErrorCode.INVALID_TEXT "Empty text", result)
  else
    let normalized_text := o.normalizeText text
    let token_ids := o.textToTokenIds normalized_text
    if token_ids = [] then
      (ErrorInfo.ok,
       { result with audio := AudioChunk.fromFloat [] st.sample_rate true
                     success := true })
    else
      let final_tokens :=
        if st.uses_blank then addBlankTokens st.pad_id token_ids else token_ids
      let mel := o.runAcousticModel final_tokens st.current_speaker st.current_speed
      if mel = [] then
        (ErrorInfo.ok,
         { result with audio := AudioChunk.fromFloat [] st.sample_rate true
                       success := true })
      else
        let audio_samples := o.runVocoder mel
        let resample_needed :=
          0 < st.output_sample_rate ∧ st.output_sample_rate ≠ st.sample_rate
        let audio_out :=
          if resample_needed then
            o.resampleAudio audio_samples st.sample_rate st.output_sample_rate
          else audio_samples
        let output_sample_rate :=
          if resample_needed then st.output_sample_rate else st.sample_rate
        let audio := AudioChunk.fromFloat audio_out output_sample_rate true
        let filled := SynthesisResult.calculateRTF
          { result with audio := audio
                        audio_duration_ms := audio.getDurationMs
                        processing_time_ms := o.elapsed_ms }
        let sentence : SentenceInfo :=
          { text := text
            begin_time_ms := 0
            end_time_ms := filled.audio_duration_ms
            is_final := true }
        (ErrorInfo.ok,
         { filled with success := true
                       sentences := filled.sentences ++ [sentence] })

/-- The Kokoro backend's native rate (KokoroBackend::SAMPLE_RATE). -/
def kokoroSampleRate : Int := 24000

/-- The KokoroBackend state read by synthesize. -/
structure KokoroState where
  initialized : Bool
  current_speed : Rat
  voice : KokoroVoiceManager

/-- The components KokoroBackend::synthesize calls out to: the phonemizer
(which normalizes internally and shells out to espeak-ng / cpp-pinyin), the
single ONNX session, the audio post-processor, and the wall clock. -/
structure KokoroOracles where
  textToTokenIds : List Nat → List Int
  runInference : List Int → List Rat → Rat → List Rat
  processAudio : List Rat → List Rat
  elapsed_ms : Int

/-- KokoroBackend::synthesize: guards, phonemization, the empty-token and
empty-waveform early returns, style-vector selection by token count, the
inverted speed `1 / speech_rate`, post-processing, and result packaging.
Every produced chunk carries the fixed 24 kHz rate. -/
def KokoroBackend.synthesize (st : KokoroState) (o : KokoroOracles)
    (text : List Nat) (result : SynthesisResult) :
    ErrorInfo × SynthesisResult :=
  if st.initialized = false then
    (ErrorInfo.error ErrorCode.NOT_INITIALIZED "Backend not initialized", result)
  else if text = [] then
    (ErrorInfo.error ErrorCode.INVALID_TEXT "Empty text", result)
  else
    let token_ids := o.textToTokenIds text
    if token_ids = [] then
      (ErrorInfo.ok,
       { result with audio := AudioChunk.fromFloat [] kokoroSampleRate true
                     success := true })
    else
      let style_vector := st.voice.getStyleVector token_ids.length
      let kokoro_speed := 1 / st.current_speed
      let audio_samples := o.runInference token_ids style_vector kokoro_speed
      if audio_samples = [] then
        (ErrorInfo.ok,
         { result with audio := AudioChunk.fromFloat [] kokoroSampleRate true
                       success := true })
      else
        let processed := o.processAudio audio_samples
        let audio := AudioChunk.fromFloat processed kokoroSampleRate true
        let filled := SynthesisResult.calculateRTF
          { result with audio := audio
                        audio_duration_ms := audio.getDurationMs
                        processing_time_ms := o.elapsed_ms }
        let sentence : SentenceInfo :=
          { text := text
            begin_time_ms := 0
            end_time_ms := filled.audio_duration_ms
            is_final := true }
        (ErrorInfo.ok,
         { filled with success := true
                       sentences := filled.sentences ++ [sentence] })

/-- calculateRTF never touches the audio chunk. -/
theorem calculateRTF_audio (r : SynthesisResult) :
    (SynthesisResult.calculateRTF r).audio = r.audio := by
  unfold SynthesisResult.calculateRTF
  split <;> rfl

/-- A result object in its default-constructed state. -/
def freshResult : SynthesisResult :=
  { request_id := ""
    audio := AudioChunk.fromFloat [] 0 true
    sentences := []
    audio_duration_ms := 0
    processing_time_ms := 0
    rtf := 0
    success := false
    error := ErrorInfo.ok }

/-- An initialised Chinese-style Matcha state with no output resampling. -/
def matchaStNoResample : MatchaState :=
  { initialized := true
    sample_rate := 22050
    output_sample_rate := 0
    pad_id := 0
    uses_blank := true
    current_speed := 1
    current_speaker := 0 }

/-- An initialised Matcha state with `output_sample_rate = 44100` configured. -/
def matchaStResample44k : MatchaState :=
  { matchaStNoResample with output_sample_rate := 44100 }

/-- Oracles whose phonemizer returns no tokens for any input. -/
def oraclesNoTokens : MatchaOracles :=
  { normalizeText := id
    textToTokenIds := fun _ => []
    runAcousticModel := fun _ _ _ => []
    runVocoder := id
    resampleAudio := fun s _ _ => s
    elapsed_ms := 0 }

/-- Oracles following the ordinary non-empty path. -/
def oraclesMainPath : MatchaOracles :=
  { normalizeText := id
    textToTokenIds := fun _ => [1]
    runAcousticModel := fun _ _ _ => [1]
    runVocoder := fun _ => [1 / 2]
    resampleAudio := fun s _ _ => s
    elapsed_ms := 3 }

/-- C1 counterexample: with `output_sample_rate = 44100` configured on a
22050 Hz backend, a text that phonemizes to no tokens takes the empty-audio
success path, which stamps the chunk with the native rate, not the non-zero
configured output rate — so the claim's "every success path, including the
empty-audio paths" fails. -/
theorem synth_sample_rate_counterexample :
    (MatchaBackend.synthesize matchaStResample44k oraclesNoTokens
      [0x68] freshResult).1.isOk = true ∧
    (MatchaBackend.synthesize matchaStResample44k oraclesNoTokens
      [0x68] freshResult).2.success = true ∧
    matchaStResample44k.output_sample_rate ≠ 0 ∧
    (MatchaBackend.synthesize matchaStResample44k oraclesNoTokens
      [0x68] freshResult).2.audio.sample_rate ≠
      matchaStResample44k.output_sample_rate := by
  refine ⟨rfl, rfl, by decide, by decide⟩

/-- C1 (amended): when synthesize succeeds, the chunk's rate is the
configured `output_sample_rate` (when positive, else the native rate) on the
path that actually produced audio, but the two empty-audio success paths
(empty token sequence, empty mel) stamp the native rate regardless of the
configured output rate; the Kokoro backend always stamps its fixed 24 kHz
rate and ignores `output_sample_rate` entirely. -/
theorem synth_sample_rate_spec (stM : MatchaState) (oM : MatchaOracles)
    (stK : KokoroState) (oK : KokoroOracles) (text : List Nat)
    (r : SynthesisResult) :
    ((MatchaBackend.synthesize stM oM text r).1.isOk = true →
      (MatchaBackend.synthesize stM oM text r).2.success = true →
      (if oM.textToTokenIds (oM.normalizeText text) = [] ∨
          oM.runAcousticModel
            (if stM.uses_blank then
              addBlankTokens stM.pad_id (oM.textToTokenIds (oM.normalizeText text))
            else oM.textToTokenIds (oM.normalizeText text))
            stM.current_speaker stM.current_speed = [] then
        (MatchaBackend.synthesize stM oM text r).2.audio.sample_rate =
          stM.sample_rate
      else
        (MatchaBackend.synthesize stM oM text r).2.audio.sample_rate =
          (if 0 < stM.output_sample_rate then stM.output_sample_rate
           else stM.sample_rate))) ∧
    ((KokoroBackend.synthesize stK oK text r).1.isOk = true →
      (KokoroBackend.synthesize stK oK text r).2.success = true →
      (KokoroBackend.synthesize stK oK text r).2.audio.sample_rate =
        kokoroSampleRate) := by
  constructor
  · intro hok _hsucc
    by_cases hinit : stM.initialized = false
    · simp only [MatchaBackend.synthesize, if_pos hinit] at hok
      simp [ErrorInfo.isOk, ErrorInfo.error] at hok
    · by_cases htext : text = []
      · simp only [MatchaBackend.synthesize, if_neg hinit, if_pos htext] at hok
        simp [ErrorInfo.isOk, ErrorInfo.error] at hok
      · by_cases htok : oM.textToTokenIds (oM.normalizeText text) = []
        · rw [if_pos (Or.inl htok)]
          simp only [MatchaBackend.synthesize, if_neg hinit, if_neg htext,
            if_pos htok]
          rfl
        · by_cases hmel : oM.runAcousticModel
              (if stM.uses_blank then
                addBlankTokens stM.pad_id
                  (oM.textToTokenIds (oM.normalizeText text))
              else oM.textToTokenIds (oM.normalizeText text))
              stM.current_speaker stM.current_speed = []
          · rw [if_pos (Or.inr hmel)]
            simp only [MatchaBackend.synthesize, if_neg hinit, if_neg htext,
              if_neg htok, if_pos hmel]
            rfl
          · rw [if_neg (by push_neg; exact ⟨htok, hmel⟩)]
            simp only [MatchaBackend.synthesize, if_neg hinit, if_neg htext,
              if_neg htok, if_neg hmel]
            rw [calculateRTF_audio]
            simp only [AudioChunk.fromFloat]
            by_cases hpos : 0 < stM.output_sample_rate
            · by_cases hne : stM.output_sample_rate ≠ stM.sample_rate
              · rw [if_pos ⟨hpos, hne⟩, if_pos hpos]
              · push_neg at hne
                rw [if_neg (by rintro ⟨_, hcon⟩; exact hcon hne), if_pos hpos,
                  hne]
            · rw [if_neg (by rintro ⟨hcon, _⟩; exact hpos hcon), if_neg hpos]
  · intro hok _hsucc
    by_cases hinit : stK.initialized = false
    · simp only [KokoroBackend.synthesize, if_pos hinit] at hok
      simp [ErrorInfo.isOk, ErrorInfo.error] at hok
    · by_cases htext : text = []
      · simp only [KokoroBackend.synthesize, if_neg hinit, if_pos htext] at hok
        simp [ErrorInfo.isOk, ErrorInfo.error] at hok
      · by_cases htok : oK.textToTokenIds text = []
        · simp only [KokoroBackend.synthesize, if_neg hinit, if_neg htext,
            if_pos htok]
          rfl
        · by_cases hwave : oK.runInference (oK.textToTokenIds text)
              (stK.voice.getStyleVector (oK.textToTokenIds text).length)
              (1 / stK.current_speed) = []
          · simp only [KokoroBackend.synthesize, if_neg hinit, if_neg htext,
              if_neg htok, if_pos hwave]
            rfl
          · simp only [KokoroBackend.synthesize, if_neg hinit, if_neg htext,
              if_neg htok, if_neg hwave]
            rw [calculateRTF_audio]
            rfl

/-- C1 witness: the main path with no configured output rate stamps the
native 22050 Hz; a Kokoro run stamps 24000 Hz. -/
theorem synth_sample_rate_spec_witness :
    (MatchaBackend.synthesize matchaStNoResample oraclesMainPath
      [0x61] freshResult).2.audio.sample_rate = 22050 ∧
    (KokoroBackend.synthesize
      (KokoroState.mk true 1 (KokoroVoiceManager.mk [] 0))
      (KokoroOracles.mk (fun _ => [0, 43, 0]) (fun _ _ _ => [1 / 2]) id 3)
      [0x61] freshResult).2.audio.sample_rate = 24000 := by
  constructor
  · have h := (synth_sample_rate_spec matchaStNoResample oraclesMainPath
      (KokoroState.mk true 1 (KokoroVoiceManager.mk [] 0))
      (KokoroOracles.mk (fun _ => [0, 43, 0]) (fun _ _ _ => [1 / 2]) id 3)
      [0x61] freshResult).1 rfl rfl
    rw [if_neg (by decide)] at h
    rw [h]
    decide
  · exact (synth_sample_rate_spec matchaStNoResample oraclesMainPath
      (KokoroState.mk true 1 (KokoroVoiceManager.mk [] 0))
      (KokoroOracles.mk (fun _ => [0, 43, 0]) (fun _ _ _ => [1 / 2]) id 3)
      [0x61] freshResult).2 rfl rfl

/-- C5 counterexample: the empty text also phonemizes to an empty token
sequence, yet synthesize rejects it with INVALID_TEXT before phonemization,
so "every input text whose phonemization is empty returns success" fails at
the empty string. -/
theorem synth_empty_text_counterexample :
    oraclesNoTokens.textToTokenIds (oraclesNoTokens.normalizeText []) = [] ∧
    (MatchaBackend.synthesize matchaStNoResample oraclesNoTokens
      [] freshResult).1.code = ErrorCode.INVALID_TEXT ∧
    (MatchaBackend.synthesize matchaStNoResample oraclesNoTokens
      [] freshResult).2.success = false :=
  ⟨rfl, rfl, rfl⟩

/-- C5 (amended): on an initialised backend, every NON-EMPTY input text whose
phonemization yields an empty token sequence makes synthesize return OK with
`success = true` and an empty audio buffer, on both the Matcha family and the
Kokoro backend (the empty text itself is rejected with INVALID_TEXT first). -/
theorem synth_empty_tokens_success (stM : MatchaState) (oM : MatchaOracles)
    (stK : KokoroState) (oK : KokoroOracles) (text : List Nat)
    (r : SynthesisResult) :
    (stM.initialized = true → text ≠ [] →
      oM.textToTokenIds (oM.normalizeText text) = [] →
      (MatchaBackend.synthesize stM oM text r).1 = ErrorInfo.ok ∧
      (MatchaBackend.synthesize stM oM text r).2.success = true ∧
      (MatchaBackend.synthesize stM oM text r).2.audio.samples = []) ∧
    (stK.initialized = true → text ≠ [] →
      oK.textToTokenIds text = [] →
      (KokoroBackend.synthesize stK oK text r).1 = ErrorInfo.ok ∧
      (KokoroBackend.synthesize stK oK text r).2.success = true ∧
      (KokoroBackend.synthesize stK oK text r).2.audio.samples = []) := by
  constructor
  · intro h1 h2 h3
    simp only [MatchaBackend.synthesize, h1, if_neg (by decide : ¬ true = false),
      if_neg h2, if_pos h3, AudioChunk.fromFloat]
    exact ⟨by trivial, by trivial, by trivial⟩
  · intro h1 h2 h3
    simp only [KokoroBackend.synthesize, h1, if_neg (by decide : ¬ true = false),
      if_neg h2, if_pos h3, AudioChunk.fromFloat]
    exact ⟨by trivial, by trivial, by trivial⟩

/-- C5 witness: a one-byte text whose phonemization is empty succeeds with an
empty buffer on both backends. -/
theorem synth_empty_tokens_success_witness :
    (MatchaBackend.synthesize matchaStNoResample oraclesNoTokens
      [0x68] freshResult).2.success = true ∧
    (KokoroBackend.synthesize
      (KokoroState.mk true 1 (KokoroVoiceManager.mk [] 0))
      (KokoroOracles.mk (fun _ => []) (fun _ _ _ => []) id 0)
      [0x68] freshResult).2.audio.samples = [] :=
  ⟨((synth_empty_tokens_success matchaStNoResample oraclesNoTokens
      (KokoroState.mk true 1 (KokoroVoiceManager.mk [] 0))
      (KokoroOracles.mk (fun _ => []) (fun _ _ _ => []) id 0)
      [0x68] freshResult).1 rfl (by decide) rfl).2.1,
   ((synth_empty_tokens_success matchaStNoResample oraclesNoTokens
      (KokoroState.mk true 1 (KokoroVoiceManager.mk [] 0))
      (KokoroOracles.mk (fun _ => []) (fun _ _ _ => []) id 0)
      [0x68] freshResult).2 rfl (by decide) rfl).2.2⟩

-- =============================================================================
-- C2: the text normalizer (text_normalizer.cpp), byte-level embedding
-- =============================================================================
-- std::string is a byte sequence and std::regex operates byte-wise, so the
-- normalizer is embedded over `List Nat` of UTF-8 bytes.  `Language::AUTO`
-- resolves per match through detectLanguage and is not modelled; the claims
-- below instantiate the forced `Language::EN` exactly as Matcha-EN does.

/-- UTF-8 encoding of one scalar (used only to build byte-string literals). -/
def utf8EncodeChar (c : Char) : List Nat :=
  let n := c.toNat
  if n < 0x80 then [n]
  else if n < 0x800 then [0xC0 + n / 64, 0x80 + n % 64]
  else if n < 0x10000 then
    [0xE0 + n / 4096, 0x80 + (n / 64) % 64, 0x80 + n % 64]
  else
    [0xF0 + n / 262144, 0x80 + (n / 4096) % 64, 0x80 + (n / 64) % 64,
     0x80 + n % 64]

/-- The UTF-8 bytes of a Lean string literal. -/
def strB (s : String) : List Nat := s.data.flatMap utf8EncodeChar

/-- `std::isdigit` on a byte. -/
def isDigitByte (b : Nat) : Bool := 0x30 ≤ b ∧ b ≤ 0x39

/-- ECMAScript `\s` on a byte. -/
def isSpaceByte (b : Nat) : Bool := b = 0x20 ∨ (0x09 ≤ b ∧ b ≤ 0x0D)

/-- ECMAScript word byte (for `\b`). -/
def isWordByte (b : Nat) : Bool :=
  isDigitByte b ∨ (0x41 ≤ b ∧ b ≤ 0x5A) ∨ (0x61 ≤ b ∧ b ≤ 0x7A) ∨ b = 0x5F

/-- Language from text_utils.hpp. -/
inductive Language where
  | ZH
  | EN
  | AUTO
  deriving DecidableEq, Repr

/-- NumberType from text_utils.hpp (constructors the modelled paths use). -/
inductive NumberType where
  | CARDINAL
  | DIGIT
  | PHONE
  | YEAR
  | DECIMAL
  deriving DecidableEq, Repr

/-- splitUtf8 from text_utils.cpp with explicit fuel: the character length
comes from the lead byte (the bit-mask tests are written as the equivalent
range tests on bytes < 256); an incomplete trailing character is skipped but
still advances the cursor. -/
def splitUtf8Fuel : Nat → List Nat → List (List Nat)
  | 0, _ => []
  | _, [] => []
  | fuel + 1, c :: rest =>
      let char_len :=
        if c < 0x80 then 1
        else if 0xC0 ≤ c ∧ c < 0xE0 then 2
        else if 0xE0 ≤ c ∧ c < 0xF0 then 3
        else if 0xF0 ≤ c ∧ c < 0xF8 then 4
        else 1
      if char_len ≤ (c :: rest).length then
        (c :: rest).take char_len :: splitUtf8Fuel fuel ((c :: rest).drop char_len)
      else splitUtf8Fuel fuel ((c :: rest).drop char_len)

/-- splitUtf8 from text_utils.cpp. -/
def splitUtf8 (s : List Nat) : List (List Nat) := splitUtf8Fuel s.length s

/-- isDigit from text_utils.cpp (on one UTF-8 character string). -/
def isDigitCh (ch : List Nat) : Bool :=
  match ch with
  | [b] => isDigitByte b
  | _ => false

/-- The numeric value of a digit-byte string (how `std::stoi` / `std::stoll`
read the leading digits; an optional sign is handled by `parseIntBytes`).
The modelled inputs all fit in int64, so no overflow is modelled. -/
def digitsVal (l : List Nat) : Int :=
  l.foldl (fun acc b => acc * 10 + ((b : Int) - 0x30)) 0

/-- `std::stoll` / `std::stoi` on the strings this code passes them: an
optional sign followed by digits; parsing stops at the first non-digit. -/
def parseIntBytes (l : List Nat) : Int :=
  match l with
  | 0x2D :: rest => -(digitsVal (rest.takeWhile isDigitByte))
  | 0x2B :: rest => digitsVal (rest.takeWhile isDigitByte)
  | _ => digitsVal (l.takeWhile isDigitByte)

/-- `std::to_string` of an int64. -/
def intDecimalBytes (i : Int) : List Nat :=
  (if i < 0 then [0x2D] else []) ++ (Nat.toDigits 10 i.natAbs).map Char.toNat

/-- The trailing-space trim loop of numberToWords. -/
def trimTrailingSpaces (l : List Nat) : List Nat :=
  (l.reverse.dropWhile (fun b => b = 0x20)).reverse

/-- ENGLISH_ONES from text_normalizer.cpp. -/
def englishOnes (i : Int) : List Nat :=
  strB ((["", "one", "two", "three", "four", "five",
    "six", "seven", "eight", "nine", "ten",
    "eleven", "twelve", "thirteen", "fourteen", "fifteen",
    "sixteen", "seventeen", "eighteen", "nineteen"].getD i.toNat ""))

/-- ENGLISH_TENS from text_normalizer.cpp. -/
def englishTens (i : Int) : List Nat :=
  strB ((["", "", "twenty", "thirty", "forty", "fifty",
    "sixty", "seventy", "eighty", "ninety"].getD i.toNat ""))

/-- ENGLISH_ORDINALS from text_normalizer.cpp. -/
def englishOrdinals (i : Int) : List Nat :=
  strB ((["", "first", "second", "third", "fourth", "fifth",
    "sixth", "seventh", "eighth", "ninth", "tenth",
    "eleventh", "twelfth", "thirteenth", "fourteenth", "fifteenth",
    "sixteenth", "seventeenth", "eighteenth", "nineteenth"].getD i.toNat ""))

/-- ENGLISH_DIGIT_NAMES from text_normalizer.cpp. -/
def englishDigitName (i : Int) : List Nat :=
  strB ((["zero", "one", "two", "three", "four",
    "five", "six", "seven", "eight", "nine"].getD i.toNat ""))

/-- CHINESE_DIGIT_NAMES from text_normalizer.cpp (also the `digits` table of
intToChineseReading in number_utils.cpp). -/
def chineseDigitName (i : Int) : List Nat :=
  strB ((["零", "一", "二", "三", "四",
    "五", "六", "七", "八", "九"].getD i.toNat ""))

/-- ENGLISH_MONTHS from text_normalizer.cpp (index 0 is the empty pad). -/
def englishMonth (i : Int) : List Nat :=
  strB ((["", "January", "February", "March", "April", "May", "June",
    "July", "August", "September", "October", "November",
    "December"].getD i.toNat ""))

/-- intToChineseReading from number_utils.cpp, with explicit fuel for the
recursion on the leading digit groups (40 is ample for int64). -/
def intToChineseReadingFuel : Nat → Int → List Nat
  | 0, _ => []
  | fuel + 1, num =>
      if num = 0 then strB "零"
      else if num < 0 then strB "负" ++ intToChineseReadingFuel fuel (-num)
      else
        let (r1, n1) :=
          if 1000000000000 ≤ num then
            let r := intToChineseReadingFuel fuel (num / 1000000000000) ++
              strB "万亿"
            let n := num % 1000000000000
            (if 0 < n ∧ n < 100000000000 then r ++ strB "零" else r, n)
          else ([], num)
        let (r2, n2) :=
          if 100000000 ≤ n1 then
            let r := r1 ++ intToChineseReadingFuel fuel (n1 / 100000000) ++
              strB "亿"
            let n := n1 % 100000000
            (if 0 < n ∧ n < 10000000 then r ++ strB "零" else r, n)
          else (r1, n1)
        let (r3, n3) :=
          if 10000 ≤ n2 then
            let r := r2 ++ intToChineseReadingFuel fuel (n2 / 10000) ++ strB "万"
            let n := n2 % 10000
            (if 0 < n ∧ n < 1000 then r ++ strB "零" else r, n)
          else (r2, n2)
        let (r4, n4) :=
          if 1000 ≤ n3 then
            let r := r3 ++ chineseDigitName (n3 / 1000) ++ strB "千"
            let n := n3 % 1000
            (if 0 < n ∧ n < 100 then r ++ strB "零" else r, n)
          else (r3, n3)
        let (r5, n5) :=
          if 100 ≤ n4 then
            let r := r4 ++ chineseDigitName (n4 / 100) ++ strB "百"
            let n := n4 % 100
            (if 0 < n ∧ n < 10 then r ++ strB "零" else r, n)
          else (r4, n4)
        let (r6, n6) :=
          if 10 ≤ n5 then
            let r := if n5 / 10 ≠ 1 ∨ r5 ≠ [] then r5 ++ chineseDigitName (n5 / 10)
              else r5
            (r ++ strB "十", n5 % 10)
          else (r5, n5)
        if 0 < n6 then r6 ++ chineseDigitName n6 else r6

/-- intToChineseReading from number_utils.cpp. -/
def intToChineseReading (num : Int) : List Nat :=
  intToChineseReadingFuel 40 num

/-- TextNormalizer::numberToWords, with explicit fuel for the recursion on
the leading digit groups (40 is ample for int64). -/
def numberToWordsFuel : Nat → Int → Language → List Nat
  | 0, _, _ => []
  | fuel + 1, num, lang =>
      if lang = Language.EN then
        if num = 0 then strB "zero"
        else if num < 0 then
          strB "negative " ++ numberToWordsFuel fuel (-num) Language.EN
        else
          let (r1, n1) :=
            if 1000000000000 ≤ num then
              (numberToWordsFuel fuel (num / 1000000000000) Language.EN ++
                strB " trillion ", num % 1000000000000)
            else ([], num)
          let (r2, n2) :=
            if 1000000000 ≤ n1 then
              (r1 ++ numberToWordsFuel fuel (n1 / 1000000000) Language.EN ++
                strB " billion ", n1 % 1000000000)
            else (r1, n1)
          let (r3, n3) :=
            if 1000000 ≤ n2 then
              (r2 ++ numberToWordsFuel fuel (n2 / 1000000) Language.EN ++
                strB " million ", n2 % 1000000)
            else (r2, n2)
          let (r4, n4) :=
            if 1000 ≤ n3 then
              (r3 ++ numberToWordsFuel fuel (n3 / 1000) Language.EN ++
                strB " thousand ", n3 % 1000)
            else (r3, n3)
          let (r5, n5) :=
            if 100 ≤ n4 then
              (r4 ++ englishOnes (n4 / 100) ++ strB " hundred ", n4 % 100)
            else (r4, n4)
          let (r6, n6) :=
            if 20 ≤ n5 then
              (r5 ++ englishTens (n5 / 10) ++
                (if n5 % 10 ≠ 0 then strB "-" ++ englishOnes (n5 % 10) else []),
               0)
            else (r5, n5)
          let r7 := if 0 < n6 then r6 ++ englishOnes n6 else r6
          trimTrailingSpaces r7
      else intToChineseReadingFuel fuel num

/-- TextNormalizer::numberToWords. -/
def numberToWords (num : Int) (lang : Language) : List Nat :=
  numberToWordsFuel 40 num lang

/-- TextNormalizer::numberToDigits: spell each digit byte, separated by
spaces in English. -/
def numberToDigits (num : List Nat) (lang : Language) : List Nat :=
  num.foldl (fun acc b =>
    if isDigitByte b then
      acc ++ (if acc ≠ [] ∧ lang = Language.EN then strB " " else []) ++
        (if lang = Language.EN then englishDigitName ((b : Int) - 0x30)
         else chineseDigitName ((b : Int) - 0x30))
    else acc) []

/-- TextNormalizer::decimalToWords: integer part as a cardinal, then the
point word, then the fractional digits one by one. -/
def decimalToWords (decimal : List Nat) (lang : Language) : List Nat :=
  let integer_part := decimal.takeWhile (fun b => b ≠ 0x2E)
  if integer_part.length = decimal.length then numberToWords (parseIntBytes decimal) lang
  else
    let decimal_part := decimal.drop (integer_part.length + 1)
    let head :=
      if integer_part = [] ∨ integer_part = strB "0" then
        (if lang = Language.EN then strB "zero" else strB "零")
      else numberToWords (parseIntBytes integer_part) lang
    let withPoint := head ++ (if lang = Language.EN then strB " point" else strB "点")
    decimal_part.foldl (fun acc b =>
      if isDigitByte b then
        acc ++ (if lang = Language.EN then strB " " ++ englishDigitName ((b : Int) - 0x30)
                else chineseDigitName ((b : Int) - 0x30))
      else acc) withPoint

/-- Byte-list suffix test used for the ordinal special cases. -/
def endsWithB (l suffix : List Nat) : Bool :=
  l.drop (l.length - suffix.length) = suffix

/-- TextNormalizer::ordinalToWords (the modelled call sites pass day numbers
1–99, so the C++ `%` agrees with `Int.emod`). -/
def ordinalToWords (num : Int) (lang : Language) : List Nat :=
  if lang = Language.EN then
    if 1 ≤ num ∧ num < 20 then englishOrdinals num
    else
      let base := numberToWords num Language.EN
      let deflt :=
        if base.getLast? = some 0x79 then base.take (base.length - 1) ++ strB "ieth"
        else base ++ strB "th"
      if num % 10 = 1 ∧ num % 100 ≠ 11 then
        if 4 < base.length ∧ endsWithB base (strB "-one") then
          base.take (base.length - 3) ++ strB "first"
        else if 3 < base.length ∧ endsWithB base (strB "one") then
          base.take (base.length - 3) ++ strB "first"
        else deflt
      else if num % 10 = 2 ∧ num % 100 ≠ 12 then
        if 4 < base.length ∧ endsWithB base (strB "-two") then
          base.take (base.length - 3) ++ strB "second"
        else if 3 < base.length ∧ endsWithB base (strB "two") then
          base.take (base.length - 3) ++ strB "second"
        else deflt
      else if num % 10 = 3 ∧ num % 100 ≠ 13 then
        if 6 < base.length ∧ endsWithB base (strB "-three") then
          base.take (base.length - 5) ++ strB "third"
        else if 5 < base.length ∧ endsWithB base (strB "three") then
          base.take (base.length - 5) ++ strB "third"
        else deflt
      else deflt
  else strB "第" ++ intToChineseReading num

/-- TextNormalizer::yearToWords. -/
def yearToWords (year : Int) (lang : Language) : List Nat :=
  if lang = Language.EN then
    if 2000 ≤ year ∧ year < 2010 then
      strB "two thousand " ++
        (if year = 2000 then []
         else strB "and " ++ numberToWords (year - 2000) Language.EN)
    else if 2010 ≤ year ∧ year < 2100 then
      numberToWords (year / 100) Language.EN ++ strB " " ++
        numberToWords (year % 100) Language.EN
    else if 1000 ≤ year ∧ year < 2000 then
      let first := year / 100
      let second := year % 100
      if second = 0 then numberToWords first Language.EN ++ strB " hundred"
      else if second < 10 then
        numberToWords first Language.EN ++ strB " oh " ++
          numberToWords second Language.EN
      else
        numberToWords first Language.EN ++ strB " " ++
          numberToWords second Language.EN
    else numberToWords year Language.EN
  else
    (intDecimalBytes year).foldl
      (fun acc b => acc ++ chineseDigitName ((b : Int) - 0x30)) []

-- -----------------------------------------------------------------------------
-- Regex scanning infrastructure
-- -----------------------------------------------------------------------------

/-- The std::sregex_iterator loop: scan the original string left to right; at
each byte position try the matcher (which receives the previous original byte
for word-boundary tests and the suffix); on a match, emit the replacement and
resume after the matched bytes, otherwise copy one byte.  Fuel is the byte
count, which bounds the number of loop steps. -/
def scanRegexFuel (m : Option Nat → List Nat → Option (Nat × List Nat)) :
    Nat → Option Nat → List Nat → List Nat
  | 0, _, s => s
  | _, _, [] => []
  | fuel + 1, prev, c :: rest =>
      match m prev (c :: rest) with
      | some (len, repl) =>
          if len = 0 then c :: scanRegexFuel m fuel (some c) rest
          else repl ++ scanRegexFuel m fuel (((c :: rest).take len).getLast?)
            ((c :: rest).drop len)
      | none => c :: scanRegexFuel m fuel (some c) rest

/-- Replace every non-overlapping leftmost match in a byte string. -/
def scanReplaceAll (m : Option Nat → List Nat → Option (Nat × List Nat))
    (s : List Nat) : List Nat :=
  scanRegexFuel m s.length none s

-- -----------------------------------------------------------------------------
-- normalizeDateTime
-- -----------------------------------------------------------------------------
-- std::regex is byte-based, so the bracket `[-/年]` is the byte set
-- containing '-', '/' and the three bytes of 年, and the quantifier of `日?`
-- applies only to the final byte 0xA5 of 日 (the first two bytes 0xE6 0x97
-- remain required).  The embedding reproduces these byte semantics.

/-- The byte class of '-', '/', and the bytes of 年. -/
def dateSep1 (b : Nat) : Bool :=
  b = 0x2D ∨ b = 0x2F ∨ b = 0xE5 ∨ b = 0xB9 ∨ b = 0xB4

/-- The byte class of '-', '/', and the bytes of 月. -/
def dateSep2 (b : Nat) : Bool :=
  b = 0x2D ∨ b = 0x2F ∨ b = 0xE6 ∨ b = 0x9C ∨ b = 0x88

/-- `(\d{1,2})日?` with day-digit count k: k digits, then the required bytes
0xE6 0x97 of 日, then the optional final byte 0xA5. -/
def dateDayTry (rest : List Nat) (k : Nat) : Option (Nat × Int) :=
  let ds := rest.take k
  if ds.length = k ∧ ds.all isDigitByte then
    let t := rest.drop k
    if t.take 2 = [0xE6, 0x97] then
      some (k + (if (t.drop 2).head? = some 0xA5 then 3 else 2), digitsVal ds)
    else none
  else none

/-- The month-and-day tail of the date pattern (month digits, a byte from
the month class, then the day part) with month-digit count k and greedy day
backtracking inside. -/
def dateMonthDayTry (rest : List Nat) (k : Nat) : Option (Nat × Int × Int) :=
  let ms := rest.take k
  if ms.length = k ∧ ms.all isDigitByte then
    match rest.drop k with
    | [] => none
    | b2 :: rest2 =>
        if dateSep2 b2 then
          match dateDayTry rest2 2 <|> dateDayTry rest2 1 with
          | some (dlen, d) => some (k + 1 + dlen, digitsVal ms, d)
          | none => none
        else none
  else none

/-- A date match (four year digits, a byte from the year class, then the
month-and-day tail) at the current position: returns the consumed length
and the captured year/month/day. -/
def dateMatchAt (s : List Nat) : Option (Nat × Int × Int × Int) :=
  let ys := s.take 4
  if ys.length = 4 ∧ ys.all isDigitByte then
    match s.drop 4 with
    | [] => none
    | b1 :: rest1 =>
        if dateSep1 b1 then
          match dateMonthDayTry rest1 2 <|> dateMonthDayTry rest1 1 with
          | some (mdlen, m, d) => some (4 + 1 + mdlen, digitsVal ys, m, d)
          | none => none
        else none
  else none

/-- The date replacement of normalizeDateTime. -/
def dateRepl (lang : Language) (y m d : Int) : List Nat :=
  if lang = Language.EN then
    englishMonth m ++ strB " " ++ ordinalToWords d Language.EN ++ strB ", " ++
      yearToWords y Language.EN
  else
    yearToWords y Language.ZH ++ strB "年" ++ intToChineseReading m ++
      strB "月" ++ intToChineseReading d ++ strB "日"

/-- A time match `(\d{1,2}):(\d{2})(?::(\d{2}))?` at the current position
(hour greedy with backtracking; second −1 when the optional group is absent). -/
def timeMatchAt (s : List Nat) : Option (Nat × Int × Int × Int) :=
  [2, 1].findSome? fun k =>
    let hs := s.take k
    if hs.length = k ∧ hs.all isDigitByte then
      match s.drop k with
      | 0x3A :: rest1 =>
          let ms := rest1.take 2
          if ms.length = 2 ∧ ms.all isDigitByte then
            let rest2 := rest1.drop 2
            match rest2 with
            | 0x3A :: rest3 =>
                let ss := rest3.take 2
                if ss.length = 2 ∧ ss.all isDigitByte then
                  some (k + 1 + 2 + 3, digitsVal hs, digitsVal ms, digitsVal ss)
                else some (k + 1 + 2, digitsVal hs, digitsVal ms, -1)
            | _ => some (k + 1 + 2, digitsVal hs, digitsVal ms, -1)
          else none
      | _ => none
    else none

/-- The time replacement of normalizeDateTime. -/
def timeRepl (lang : Language) (hour minute second : Int) : List Nat :=
  if lang = Language.EN then
    let period := if 12 ≤ hour then strB "PM" else strB "AM"
    let hour12 := if hour % 12 = 0 then 12 else hour % 12
    let base :=
      if minute = 0 then numberToWords hour12 Language.EN ++ strB " " ++ period
      else
        numberToWords hour12 Language.EN ++ strB " " ++
          numberToWords minute Language.EN ++ strB " " ++ period
    if 0 ≤ second then
      base ++ strB " and " ++ numberToWords second Language.EN ++ strB " seconds"
    else base
  else
    let base := intToChineseReading hour ++ strB "点"
    let withMin := if 0 < minute then base ++ intToChineseReading minute ++ strB "分"
      else base
    if 0 ≤ second then withMin ++ intToChineseReading second ++ strB "秒"
    else withMin

/-- A year match `(\d{4})年` at the current position (the three bytes of 年
are literal atoms, all required). -/
def yearMatchAt (s : List Nat) : Option (Nat × Int) :=
  let ys := s.take 4
  if ys.length = 4 ∧ ys.all isDigitByte ∧
      (s.drop 4).take 3 = [0xE5, 0xB9, 0xB4] then
    some (7, digitsVal ys)
  else none

/-- TextNormalizer::normalizeDateTime: the date pass, then the time pass,
then the bare-year pass, each a full regex-replace sweep. -/
def normalizeDateTime (text : List Nat) (lang : Language) : List Nat :=
  let afterDate := scanReplaceAll (fun _ s =>
    (dateMatchAt s).map fun r => (r.1, dateRepl lang r.2.1 r.2.2.1 r.2.2.2)) text
  let afterTime := scanReplaceAll (fun _ s =>
    (timeMatchAt s).map fun r => (r.1, timeRepl lang r.2.1 r.2.2.1 r.2.2.2))
    afterDate
  scanReplaceAll (fun _ s =>
    (yearMatchAt s).map fun r =>
      (r.1, yearToWords r.2 lang ++ (if lang = Language.EN then [] else strB "年")))
    afterTime

-- -----------------------------------------------------------------------------
-- normalizeCurrency
-- -----------------------------------------------------------------------------

/-- CURRENCY_SYMBOLS from text_normalizer.cpp (key, Chinese word, English
word). -/
def currencySymbols : List (List Nat × List Nat × List Nat) :=
  [(strB "¥", strB "元", strB "yuan"),
   (strB "￥", strB "元", strB "yuan"),
   (strB "$", strB "美元", strB "dollars"),
   (strB "€", strB "欧元", strB "euros"),
   (strB "£", strB "英镑", strB "pounds"),
   (strB "₩", strB "韩元", strB "won"),
   (strB "₹", strB "卢比", strB "rupees")]

/-- CURRENCY_SUFFIXES from text_normalizer.cpp. -/
def currencySuffixes : List (List Nat × List Nat × List Nat) :=
  [(strB "元", strB "元", strB "yuan"),
   (strB "块", strB "块", strB "yuan"),
   (strB "块钱", strB "块钱", strB "yuan"),
   (strB "美元", strB "美元", strB "US dollars"),
   (strB "美金", strB "美金", strB "US dollars"),
   (strB "人民币", strB "人民币", strB "RMB")]

/-- Association lookup keyed on the first component. -/
def assocLookup (table : List (List Nat × List Nat × List Nat))
    (key : List Nat) : Option (List Nat × List Nat) :=
  (table.find? (fun e => e.1 = key)).map (fun e => e.2)

/-- The digit-collection loop after a currency symbol: digits are kept, one
decimal point is kept, thousands separators (ASCII and full-width comma) are
skipped, anything else stops the collection. -/
def currencyCollect : Nat → Bool → List (List Nat) → List Nat × List (List Nat)
  | 0, _, cs => ([], cs)
  | _, _, [] => ([], [])
  | fuel + 1, has_decimal, ch :: rest =>
      if isDigitCh ch then
        let (n, r) := currencyCollect fuel has_decimal rest
        (ch ++ n, r)
      else if ch = [0x2E] ∧ ¬ has_decimal then
        let (n, r) := currencyCollect fuel true rest
        (0x2E :: n, r)
      else if ch = [0x2C] ∨ ch = strB "，" then currencyCollect fuel has_decimal rest
      else ([], ch :: rest)

/-- Stage 1 of normalizeCurrency: scan the UTF-8 characters; a currency
symbol followed by a number becomes the spelled amount plus currency word. -/
def currencySymbolScan : Nat → Language → List (List Nat) → List Nat
  | 0, _, _ => []
  | _, _, [] => []
  | fuel + 1, lang, ch :: rest =>
      match assocLookup currencySymbols ch with
      | some (zhW, enW) =>
          let (num_str, rest2) := currencyCollect rest.length false rest
          if num_str ≠ [] then
            let amount :=
              if num_str.contains 0x2E then decimalToWords num_str lang
              else numberToWords (parseIntBytes num_str) lang
            (if lang = Language.EN then amount ++ strB " " ++ enW
             else amount ++ zhW) ++ currencySymbolScan fuel lang rest2
          else ch ++ currencySymbolScan fuel lang rest
      | none => ch ++ currencySymbolScan fuel lang rest

/-- A match of the suffix regex
`(\d+(?:\.\d+)?)\s*(元|块|块钱|美元|美金|人民币)`: greedy number, optional
decimal part, greedy whitespace, then the alternatives tried in written
order (the suffix bytes are all ≥ 0xE4, so greedy matching without
backtracking is exact here). -/
def currencySuffixMatchAt (lang : Language) (s : List Nat) :
    Option (Nat × List Nat) :=
  let ds := s.takeWhile isDigitByte
  if ds = [] then none
  else
    let rest1 := s.drop ds.length
    let dec :=
      match rest1 with
      | 0x2E :: t =>
          let more := t.takeWhile isDigitByte
          if more = [] then [] else 0x2E :: more
      | _ => []
    let num_str := ds ++ dec
    let rest2 := s.drop num_str.length
    let ws := rest2.takeWhile isSpaceByte
    let rest3 := rest2.drop ws.length
    match currencySuffixes.find? (fun e => rest3.take e.1.length = e.1) with
    | some e =>
        let amount :=
          if num_str.contains 0x2E then decimalToWords num_str lang
          else numberToWords (parseIntBytes num_str) lang
        let repl :=
          match assocLookup currencySuffixes e.1 with
          | some (zhW, enW) =>
              if lang = Language.EN then amount ++ strB " " ++ enW
              else amount ++ zhW
          | none => amount ++ e.1
        some (num_str.length + ws.length + e.1.length, repl)
    | none => none

/-- TextNormalizer::normalizeCurrency: the symbol scan, then the suffix
regex sweep. -/
def normalizeCurrency (text : List Nat) (lang : Language) : List Nat :=
  let stage1 := currencySymbolScan (splitUtf8 text).length lang (splitUtf8 text)
  scanReplaceAll (fun _ s => currencySuffixMatchAt lang s) stage1

-- -----------------------------------------------------------------------------
-- normalizePhoneNumbers
-- -----------------------------------------------------------------------------

/-- The byte class `[-\s]`. -/
def isPhoneSep (b : Nat) : Bool := b = 0x2D ∨ isSpaceByte b

/-- `\b` after the match: the next byte must not be a word byte. -/
def endBoundary (t : List Nat) : Bool :=
  match t.head? with
  | none => true
  | some b => ¬ isWordByte b

/-- The greedy candidates for a `[-\s]?` quantifier (consume the separator
first, then retry without it). -/
def sepCandidates (t : List Nat) : List Nat :=
  (if (t.head?.map isPhoneSep).getD false then [1] else []) ++ [0]

/-- Alternative `\b1[3-9]\d{9}\b`. -/
def phoneAltA (s : List Nat) : Option Nat :=
  match s with
  | b0 :: b1 :: rest =>
      if b0 = 0x31 ∧ 0x33 ≤ b1 ∧ b1 ≤ 0x39 ∧ (rest.take 9).length = 9 ∧
          (rest.take 9).all isDigitByte ∧ endBoundary (rest.drop 9) then
        some 11
      else none
  | _ => none

/-- Alternative `\b1[3-9]\d[-\s]?\d{4}[-\s]?\d{4}\b`. -/
def phoneAltB (s : List Nat) : Option Nat :=
  match s with
  | b0 :: b1 :: b2 :: rest =>
      if b0 = 0x31 ∧ 0x33 ≤ b1 ∧ b1 ≤ 0x39 ∧ isDigitByte b2 then
        (sepCandidates rest).findSome? fun s1 =>
          let r1 := rest.drop s1
          if (r1.take 4).length = 4 ∧ (r1.take 4).all isDigitByte then
            let r2 := r1.drop 4
            (sepCandidates r2).findSome? fun s2 =>
              let r3 := r2.drop s2
              if (r3.take 4).length = 4 ∧ (r3.take 4).all isDigitByte ∧
                  endBoundary (r3.drop 4) then
                some (3 + s1 + 4 + s2 + 4)
              else none
          else none
      else none
  | _ => none

/-- Alternative `\b\d{3,4}[-\s]?\d{7,8}\b` (greedy counts with
backtracking). -/
def phoneAltC (s : List Nat) : Option Nat :=
  [4, 3].findSome? fun k =>
    if (s.take k).length = k ∧ (s.take k).all isDigitByte then
      let r1 := s.drop k
      (sepCandidates r1).findSome? fun s1 =>
        let r2 := r1.drop s1
        [8, 7].findSome? fun k2 =>
          if (r2.take k2).length = k2 ∧ (r2.take k2).all isDigitByte ∧
              endBoundary (r2.drop k2) then
            some (k + s1 + k2)
          else none
    else none

/-- A phone match at the current position: the three alternatives in written
order, all anchored by a leading `\b` (every alternative starts with a
digit, so the boundary holds exactly when the previous byte is not a word
byte). -/
def phoneMatchAt (lang : Language) (prev : Option Nat) (s : List Nat) :
    Option (Nat × List Nat) :=
  if (prev.map isWordByte).getD false then none
  else
    match phoneAltA s <|> phoneAltB s <|> phoneAltC s with
    | some len =>
        let digits_only := (s.take len).filter isDigitByte
        some (len, numberToDigits digits_only lang)
    | none => none

/-- TextNormalizer::normalizePhoneNumbers. -/
def normalizePhoneNumbers (text : List Nat) (lang : Language) : List Nat :=
  scanReplaceAll (phoneMatchAt lang) text

-- -----------------------------------------------------------------------------
-- normalizePercentages
-- -----------------------------------------------------------------------------

/-- The greedy number part `\d+\.?\d*` shared by several patterns: leading
digits, an optional single dot, trailing digits.  For the patterns that use
it the following literal can never match a digit or a dot, so greedy
matching without backtracking is exact. -/
def greedyNumber (s : List Nat) : List Nat :=
  let ds := s.takeWhile isDigitByte
  if ds = [] then []
  else
    match s.drop ds.length with
    | 0x2E :: t => ds ++ [0x2E] ++ t.takeWhile isDigitByte
    | _ => ds

/-- A match of `(\d+\.?\d*)%` at the current position. -/
def percentMatchAt (lang : Language) (s : List Nat) : Option (Nat × List Nat) :=
  let num_str := greedyNumber s
  if num_str = [] then none
  else if (s.drop num_str.length).head? = some 0x25 then
    let amount :=
      if num_str.contains 0x2E then decimalToWords num_str lang
      else numberToWords (parseIntBytes num_str) lang
    some (num_str.length + 1,
      if lang = Language.EN then amount ++ strB " percent"
      else strB "百分之" ++ amount)
  else none

/-- TextNormalizer::normalizePercentages. -/
def normalizePercentages (text : List Nat) (lang : Language) : List Nat :=
  scanReplaceAll (fun _ s => percentMatchAt lang s) text

-- -----------------------------------------------------------------------------
-- normalizeUnits
-- -----------------------------------------------------------------------------

/-- One entry of the UNITS table: the unit spelling that is spliced into the
per-unit regex, and its Chinese and English readings. -/
structure UnitEntry where
  unit : List Nat
  zh : List Nat
  en : List Nat
  deriving DecidableEq, Repr

/-- The UNITS table from text_normalizer.cpp (33 entries; the pass sorts
them by byte length, longest first, with an unstable sort over an unordered
map, so the claims below quantify over every permutation). -/
def unitsTable : List UnitEntry :=
  [⟨strB "km", strB "公里", strB "kilometers"⟩,
   ⟨strB "m", strB "米", strB "meters"⟩,
   ⟨strB "cm", strB "厘米", strB "centimeters"⟩,
   ⟨strB "mm", strB "毫米", strB "millimeters"⟩,
   ⟨strB "mi", strB "英里", strB "miles"⟩,
   ⟨strB "ft", strB "英尺", strB "feet"⟩,
   ⟨strB "in", strB "英寸", strB "inches"⟩,
   ⟨strB "kg", strB "公斤", strB "kilograms"⟩,
   ⟨strB "g", strB "克", strB "grams"⟩,
   ⟨strB "mg", strB "毫克", strB "milligrams"⟩,
   ⟨strB "lb", strB "磅", strB "pounds"⟩,
   ⟨strB "oz", strB "盎司", strB "ounces"⟩,
   ⟨strB "L", strB "升", strB "liters"⟩,
   ⟨strB "l", strB "升", strB "liters"⟩,
   ⟨strB "ml", strB "毫升", strB "milliliters"⟩,
   ⟨strB "mL", strB "毫升", strB "milliliters"⟩,
   ⟨strB "°C", strB "摄氏度", strB "degrees Celsius"⟩,
   ⟨strB "°F", strB "华氏度", strB "degrees Fahrenheit"⟩,
   ⟨strB "℃", strB "摄氏度", strB "degrees Celsius"⟩,
   ⟨strB "℉", strB "华氏度", strB "degrees Fahrenheit"⟩,
   ⟨strB "m²", strB "平方米", strB "square meters"⟩,
   ⟨strB "km²", strB "平方公里", strB "square kilometers"⟩,
   ⟨strB "m2", strB "平方米", strB "square meters"⟩,
   ⟨strB "km2", strB "平方公里", strB "square kilometers"⟩,
   ⟨strB "km/h", strB "公里每小时", strB "kilometers per hour"⟩,
   ⟨strB "m/s", strB "米每秒", strB "meters per second"⟩,
   ⟨strB "mph", strB "英里每小时", strB "miles per hour"⟩,
   ⟨strB "KB", strB "千字节", strB "kilobytes"⟩,
   ⟨strB "MB", strB "兆字节", strB "megabytes"⟩,
   ⟨strB "GB", strB "吉字节", strB "gigabytes"⟩,
   ⟨strB "TB", strB "太字节", strB "terabytes"⟩,
   ⟨strB "Mbps", strB "兆比特每秒", strB "megabits per second"⟩,
   ⟨strB "Gbps", strB "吉比特每秒", strB "gigabits per second"⟩]

/-- A match of the per-unit regex `(\d+\.?\d*)(unit)` at the current
position (no unit spelling starts with a digit or a dot, so the greedy
number needs no backtracking). -/
def unitMatchAt (u : UnitEntry) (lang : Language) (s : List Nat) :
    Option (Nat × List Nat) :=
  let num_str := greedyNumber s
  if num_str = [] then none
  else
    let rest := s.drop num_str.length
    if u.unit ≠ [] ∧ rest.take u.unit.length = u.unit then
      let amount :=
        if num_str.contains 0x2E then decimalToWords num_str lang
        else numberToWords (parseIntBytes num_str) lang
      some (num_str.length + u.unit.length,
        if lang = Language.EN then amount ++ strB " " ++ u.en
        else amount ++ u.zh)
    else none

/-- TextNormalizer::normalizeUnits: one full regex sweep per unit, in the
order of the sorted unit list `us`. -/
def normalizeUnits (us : List UnitEntry) (text : List Nat) (lang : Language) :
    List Nat :=
  us.foldl (fun acc u => scanReplaceAll (fun _ s => unitMatchAt u lang s) acc)
    text

-- -----------------------------------------------------------------------------
-- normalizeFormulas
-- -----------------------------------------------------------------------------

/-- MATH_OPERATORS from text_normalizer.cpp (key, Chinese, English). -/
def mathOperators : List (List Nat × List Nat × List Nat) :=
  [(strB "+", strB "加", strB "plus"),
   (strB "-", strB "减", strB "minus"),
   (strB "−", strB "减", strB "minus"),
   (strB "*", strB "乘", strB "times"),
   (strB "×", strB "乘", strB "times"),
   (strB "÷", strB "除以", strB "divided by"),
   (strB "/", strB "除以", strB "divided by"),
   (strB "=", strB "等于", strB "equals"),
   (strB "≠", strB "不等于", strB "not equal to"),
   (strB ">", strB "大于", strB "greater than"),
   (strB "<", strB "小于", strB "less than"),
   (strB "≥", strB "大于等于", strB "greater than or equal to"),
   (strB "≤", strB "小于等于", strB "less than or equal to"),
   (strB ">=", strB "大于等于", strB "greater than or equal to"),
   (strB "<=", strB "小于等于", strB "less than or equal to"),
   (strB "^", strB "的", strB "to the power of"),
   (strB "√", strB "根号", strB "square root of"),
   (strB "±", strB "正负", strB "plus or minus")]

/-- The character scan of TextNormalizer::normalizeFormulas: a two-character
operator first, then a single-character operator, with the special negative
sign rule; `prev` is the previous character of the original string. -/
def formulasScan : Nat → Language → Option (List Nat) → List (List Nat) →
    List Nat
  | 0, _, _, _ => []
  | _, _, _, [] => []
  | fuel + 1, lang, prev, ch :: rest =>
      let single :=
        match assocLookup mathOperators ch with
        | some (zhW, enW) =>
            let prev_ok : Bool :=
              match prev with
              | none => true
              | some p =>
                  (assocLookup mathOperators p).isSome ||
                  p = strB "(" || p = strB "（" || p = strB " "
            let is_negative : Bool :=
              (ch = strB "-" ∨ ch = strB "−") &&
              (rest.head?.map isDigitCh).getD false && prev_ok
            some (if is_negative then
                (if lang = Language.EN then strB "negative " else strB "负")
              else if lang = Language.EN then strB " " ++ enW ++ strB " "
              else zhW)
        | none => none
      match rest.head? with
      | some ch2 =>
          match assocLookup mathOperators (ch ++ ch2) with
          | some (zhW, enW) =>
              (if lang = Language.EN then strB " " ++ enW ++ strB " " else zhW) ++
                formulasScan fuel lang (some ch2) (rest.drop 1)
          | none =>
              match single with
              | some repl => repl ++ formulasScan fuel lang (some ch) rest
              | none => ch ++ formulasScan fuel lang (some ch) rest
      | none =>
          match single with
          | some repl => repl ++ formulasScan fuel lang (some ch) rest
          | none => ch ++ formulasScan fuel lang (some ch) rest

/-- TextNormalizer::normalizeFormulas. -/
def normalizeFormulas (text : List Nat) (lang : Language) : List Nat :=
  formulasScan (splitUtf8 text).length lang none (splitUtf8 text)

-- -----------------------------------------------------------------------------
-- normalizeNumbers
-- -----------------------------------------------------------------------------

/-- TextNormalizer::isPhoneNumber. -/
def isPhoneNumber (num : List Nat) : Bool :=
  let digits := num.filter isDigitByte
  let second_ok : Bool :=
    match digits[1]? with
    | some b => 0x33 ≤ b ∧ b ≤ 0x39
    | none => false
  if digits.length == 11 && digits.head? == some 0x31 && second_ok then
    true
  else if (7 ≤ digits.length && digits.length ≤ 12) &&
      (digits.length == 11 || digits.length == 12) &&
      (digits.take 3 == strB "010" || digits.take 3 == strB "021" ||
       digits.take 3 == strB "020" || digits.take 3 == strB "025") then
    true
  else false

/-- TextNormalizer::detectNumberType, phrased on the matched number string
and the bytes that follow the match (`pos + len < text.length()` is
`following ≠ []`; `stoi` reads the leading digits). -/
def detectNumberType (num : List Nat) (following : List Nat) : NumberType :=
  if num.contains 0x2E then NumberType.DECIMAL
  else if isPhoneNumber num then NumberType.PHONE
  else if num.length = 4 ∧
      (1000 ≤ parseIntBytes num ∧ parseIntBytes num ≤ 2999) ∧
      following ≠ [] ∧
      (splitUtf8 (following.take 6)).head? = some (strB "年") then
    NumberType.YEAR
  else NumberType.CARDINAL

/-- A match of the generic number regex
`(\d+\.?\d*(?:[eE][+-]?\d+)?)` at the current position: the greedy mantissa,
then the exponent group when an e/E is followed by an optionally signed
digit run. -/
def numMatchNumStr (s : List Nat) : List Nat :=
  let mant := greedyNumber s
  if mant = [] then []
  else
    match s.drop mant.length with
    | e :: t =>
        if e = 0x65 ∨ e = 0x45 then
          let (sign, t2) :=
            match t with
            | b :: t2 => if b = 0x2B ∨ b = 0x2D then ([b], t2) else ([], b :: t2)
            | [] => ([], [])
          let eds := t2.takeWhile isDigitByte
          if eds = [] then mant else mant ++ [e] ++ sign ++ eds
        else mant
    | [] => mant

/-- The normalized reading the switch of normalizeNumbers produces. -/
def numReading (lang : Language) (num_str : List Nat) (following : List Nat) :
    List Nat :=
  match detectNumberType num_str following with
  | NumberType.DECIMAL => decimalToWords num_str lang
  | NumberType.YEAR => yearToWords (parseIntBytes num_str) lang
  | NumberType.DIGIT => numberToDigits num_str lang
  | NumberType.PHONE => numberToDigits num_str lang
  | NumberType.CARDINAL =>
      match num_str.findIdx? (fun b => b = 0x65 ∨ b = 0x45) with
      | some e_pos =>
          let mantissa := num_str.take e_pos
          let exponent := num_str.drop (e_pos + 1)
          if lang = Language.EN then
            decimalToWords mantissa lang ++ strB " times ten to the power of " ++
              numberToWords (parseIntBytes exponent) lang
          else
            decimalToWords mantissa lang ++ strB "乘以十的" ++
              numberToWords (parseIntBytes exponent) lang ++ strB "次方"
      | none =>
          if num_str.contains 0x2E then decimalToWords num_str lang
          else numberToWords (parseIntBytes num_str) lang

/-- TextNormalizer::normalizeNumbers. -/
def normalizeNumbers (text : List Nat) (lang : Language) : List Nat :=
  scanReplaceAll (fun _ s =>
    let num_str := numMatchNumStr s
    if num_str = [] then none
    else some (num_str.length, numReading lang num_str (s.drop num_str.length)))
    text

-- -----------------------------------------------------------------------------
-- TextNormalizer::normalize
-- -----------------------------------------------------------------------------

/-- TextNormalizer::normalize: the seven passes in their fixed order, for a
forced language (ZH or EN).  The AUTO resolution consults detectLanguage per
match and is outside this model; Matcha-EN forces Language::EN. -/
def textNormalize (us : List UnitEntry) (text : List Nat) (lang : Language) :
    List Nat :=
  if text = [] then text
  else
    let r1 := normalizeDateTime text lang
    let r2 := normalizeCurrency r1 lang
    let r3 := normalizePhoneNumbers r2 lang
    let r4 := normalizePercentages r3 lang
    let r5 := normalizeUnits us r4 lang
    let r6 := normalizeFormulas r5 lang
    normalizeNumbers r6 lang

-- -----------------------------------------------------------------------------
-- C2: the claim about "The year 2024 was good."
-- -----------------------------------------------------------------------------

/-- Byte-substring test. -/
def containsSubstrB (s sub : List Nat) : Bool :=
  (List.range (s.length + 1)).any (fun i => (s.drop i).take sub.length = sub)

/-- The input of the English digit-spelling scenario. -/
def c2Input : List Nat := strB "The year 2024 was good."

/-- What the normalizer actually produces for it. -/
def c2Expected : List Nat := strB "The year two thousand twenty-four was good."

/-- A fold whose step fixes the accumulator leaves it unchanged. -/
theorem foldl_fixed {α β : Type} (f : β → α → α) (us : List β) (x : α)
    (h : ∀ u ∈ us, f u x = x) : us.foldl (fun acc u => f u acc) x = x := by
  induction us with
  | nil => rfl
  | cons u us ih =>
      simp only [List.foldl_cons, h u (by simp)]
      exact ih (fun v hv => h v (by simp [hv]))

/-- No unit regex matches anywhere in the scenario input (no digit run is
immediately followed by a unit spelling), for every entry of the units
table — hence for every sort order of the table. -/
theorem c2_units_no_match :
    ∀ u ∈ unitsTable,
      scanReplaceAll (fun _ s => unitMatchAt u Language.EN s) c2Input =
        c2Input := by decide

/-- C2 counterexample: normalizing the scenario input with the English rule
set does NOT produce the substring "twenty twenty-four": the YEAR
classification in detectNumberType requires the four digits to be followed
by the character 年, which English prose never has, so "2024" is read as the
cardinal "two thousand twenty-four". -/
theorem c2_claim_counterexample :
    containsSubstrB (textNormalize unitsTable c2Input Language.EN)
      (strB "twenty twenty-four") = false := by decide

/-- C2 (amended): for every ordering of the units table, the English
normalization of "The year 2024 was good." is exactly
"The year two thousand twenty-four was good.", which contains the substring
"two thousand twenty-four" and not "twenty twenty-four" (the latter reading
is produced by yearToWords only when the digits are suffixed with 年). -/
theorem c2_normalized_reading (us : List UnitEntry)
    (hperm : us.Perm unitsTable) :
    textNormalize us c2Input Language.EN = c2Expected ∧
    containsSubstrB (textNormalize us c2Input Language.EN)
      (strB "two thousand twenty-four") = true ∧
    containsSubstrB (textNormalize us c2Input Language.EN)
      (strB "twenty twenty-four") = false := by
  have hpass4 : normalizePercentages (normalizePhoneNumbers (normalizeCurrency
      (normalizeDateTime c2Input Language.EN) Language.EN) Language.EN)
      Language.EN = c2Input := by decide
  have hunits : normalizeUnits us c2Input Language.EN = c2Input :=
    foldl_fixed _ us c2Input
      (fun u hu => c2_units_no_match u (hperm.mem_iff.mp hu))
  have hchain : textNormalize us c2Input Language.EN = c2Expected := by
    simp only [textNormalize]
    rw [if_neg (by decide), hpass4, hunits]
    decide
  refine ⟨hchain, ?_, ?_⟩ <;> rw [hchain] <;> decide

/-- C2 witness: the amended theorem at the table's own order. -/
theorem c2_normalized_reading_witness :
    containsSubstrB (textNormalize unitsTable c2Input Language.EN)
      (strB "two thousand twenty-four") = true :=
  (c2_normalized_reading unitsTable (List.Perm.refl _)).2.1

end EvoTts
